import Mathlib

/-!
# Skylander portal window

A shallow embedding of `Source/Core/DolphinQt/SkylanderPortal/SkylanderPortalWindow.cpp`.

The window object, the configuration value it writes and the emulated system it calls
into are one explicit state record; every handler is a function from states to states.
Calls that leave the file (message boxes, dialogs, portal operations) are appended to a
log so that statements of the form "the portal is not called" can be made.

Conventions:
* `u8` and `u16` values are natural numbers, truncated where the source stores them;
* `std::array` members are lists, indexed with `getD`; an index outside the array is
  undefined in the source, so the theorems about a slot assume it is inside the array;
* `tr` is the translation lookup of the toolkit; the embedding fixes the source locale,
  where it returns its argument.
-/

namespace Dolphin

/-- Raw contents of a file, one number per byte. -/
abbrev Bytes := List Nat

/-- Modelled from the spec: the enumeration `IOS::HLE::USB::Game` of
`Core/IOS/USB/Emulated/Skylander.h`, which is missing from the sources; its five
enumerators are the ones the window names. -/
inductive Game where
  | SPYROS_ADV
  | GIANTS
  | SWAP_FORCE
  | TRAP_TEAM
  | SUPERCHARGERS
deriving DecidableEq, Repr

/-- Modelled from the spec: the enumeration `IOS::HLE::USB::Element` of
`Core/IOS/USB/Emulated/Skylander.h`, which is missing from the sources; its nine
enumerators are the ones the window names. -/
inductive Element where
  | MAGIC
  | WATER
  | TECH
  | FIRE
  | EARTH
  | LIFE
  | AIR
  | UNDEAD
  | E_OTHER
deriving DecidableEq, Repr

/-- Modelled from the spec: the record `IOS::HLE::USB::SkyData` stored in
`list_skylanders`, missing from the sources; the window reads `name`, `game` and
`element`. -/
structure SkyData where
  name : String
  game : Game
  element : Element
deriving DecidableEq, Repr

/-- The record `Skylander` of the header: what the window remembers of a loaded figure. -/
structure Skylander where
  portal_slot : Nat
  sky_id : Nat
  sky_var : Nat
deriving DecidableEq, Repr

/-- A colour as the four components given to `QColor`. -/
structure QColor where
  r : Nat
  g : Nat
  b : Nat
  a : Nat
deriving DecidableEq, Repr

/-- An item of the list widget: its text, the value stored under role 1, and its
background. The background is `none` exactly when `list_skylanders.at` fails in
`GetBaseColor`. -/
structure QListWidgetItem where
  text : String
  data : Nat
  background : Option QColor
deriving DecidableEq, Repr

/-- The list widget: its items and the current row (`-1` when there is none). -/
structure QListWidget where
  items : List QListWidgetItem
  currentRow : Int
deriving DecidableEq, Repr

/-- A radio button with its checked state and the integer stored in its `id` property. -/
structure QRadioButton where
  isChecked : Bool
  id : Int
deriving DecidableEq, Repr

/-- An entry returned by `QDir::entryInfoList`: the directory it was listed from and its
file name. -/
structure QFileInfo where
  dir : String
  fileName : String
deriving DecidableEq, Repr

/-- Calls that leave the window, in the order they are made. -/
inductive Event where
  | warning (title text : String)
  | question (title text : String)
  | getSaveFileName (title dir : String)
  | getExistingDirectory (title dir : String)
  | RemoveSkylander (portal_slot : Nat)
  | LoadSkylander (data : Bytes) (path : String)
  | CreateSkylander (path : String) (sky_id sky_var : Nat)
  | accept
deriving DecidableEq, Repr

/-- Everything the window uses that is defined outside the file: the constants and the
table of `Skylander.h`, the portal object, the file system and the platform-dependent
parts of the toolkit. `σ` is the state of the emulated system and the file system. -/
structure Env (σ : Type) where
  /-- Number of portal slots, `MAX_SKYLANDERS`. -/
  MAX_SKYLANDERS : Nat
  /-- The map `list_skylanders`, as its entries in iteration order. -/
  list_skylanders : List ((Nat × Nat) × SkyData)
  /-- Case folding used by case-insensitive matching. -/
  foldCase : Char → Char
  /-- The native directory separator, `QDir::separator`. -/
  separator : Char
  /-- Parent directory of a file path, `QFileInfo(path).absolutePath()`. -/
  absolutePath : σ → String → String
  /-- Portal: identifiers read from the bytes of a figure. -/
  CalculateIDs : Bytes → Nat × Nat
  /-- Portal: remove the figure of a portal slot; the flag tells whether it worked. -/
  RemoveSkylander : σ → Nat → Bool × σ
  /-- Portal: load a figure; the number is the portal slot, `0xFF` on failure. -/
  LoadSkylander : σ → Bytes → String → Nat × σ
  /-- Portal: create a figure file; the flag tells whether it worked. -/
  CreateSkylander : σ → String → Nat → Nat → Bool × σ
  /-- Opening a file with mode `r+b`: its contents, or `none` when it cannot be opened. -/
  openFile : σ → String → Option Bytes
  /-- Names of the entries of a directory, in listing order. -/
  entryList : σ → String → List String

/-- The window together with the configuration value it writes, the state of the
emulated system and the log of outside calls. -/
structure SkylanderPortalWindow (σ : Type) where
  m_edit_skylanders : List String
  m_sky_slots : List (Option Skylander)
  m_emulating : Bool
  m_slot_radios : List QRadioButton
  m_last_skylander_path : String
  m_collection_path : String
  m_path_edit : String
  m_game_filters : Game → Bool
  m_element_filter : List QRadioButton
  m_only_show_collection : Bool
  m_sky_search : String
  m_skylander_list : QListWidget
  sky_id : Nat
  sky_var : Nat
  /-- The stored configuration value `Config::MAIN_SKYLANDERS_PATH`. -/
  MAIN_SKYLANDERS_PATH : String
  /-- State of the emulated system and of the file system. -/
  system : σ
  /-- Outside calls made so far. -/
  log : List Event

/-! ## Toolkit strings -/

/-- The translation lookup, in the source locale. -/
def tr (s : String) : String := s

/-- Value of a decimal digit character. -/
def digitValue (c : Char) : Nat := c.toNat - 48

/-- If the characters start with a place marker `%N` (one or two digits), its number and
its length. -/
def markerAt : List Char → Option (Nat × Nat)
  | '%' :: d1 :: rest =>
    if d1.isDigit then
      match rest with
      | d2 :: _ =>
        if d2.isDigit then some (10 * digitValue d1 + digitValue d2, 3)
        else some (digitValue d1, 2)
      | [] => some (digitValue d1, 2)
    else none
  | _ => none

/-- Numbers of the place markers of a template, left to right. -/
def markers : Nat → List Char → List Nat
  | _, [] => []
  | skip + 1, _ :: cs => markers skip cs
  | 0, c :: cs =>
    match markerAt (c :: cs) with
    | some (n, len) => n :: markers (len - 1) cs
    | none => markers 0 cs

/-- Replace every place marker numbered `n` by `a`. -/
def replaceMarker (n : Nat) (a : List Char) : Nat → List Char → List Char
  | _, [] => []
  | skip + 1, _ :: cs => replaceMarker n a skip cs
  | 0, c :: cs =>
    match markerAt (c :: cs) with
    | some (m, len) =>
      if m = n then a ++ replaceMarker n a (len - 1) cs
      else c :: replaceMarker n a 0 cs
    | none => c :: replaceMarker n a 0 cs

/-- The call `QString::arg(a)` with a string: the lowest-numbered place marker of the
template is replaced by `a`; a template without a marker is returned as it is. -/
def QString.arg (template a : String) : String :=
  match (markers 0 template.toList).min? with
  | some n => String.mk (replaceMarker n a.toList 0 template.toList)
  | none => template

/-- The call `QString::arg(a, fieldWidth)` with a number: the decimal text of `a` is
padded on the left with spaces to `fieldWidth` characters. -/
def QString.argWidth (template : String) (a fieldWidth : Nat) : String :=
  let s := (toString a).toList
  QString.arg template (String.mk (List.replicate (fieldWidth - s.length) ' ' ++ s))

/-- The call `QString::contains(t, Qt::CaseInsensitive)`. -/
def QString.contains {σ : Type} (env : Env σ) (s t : String) : Bool :=
  (s.toList.map env.foldCase).tails.any
    (fun rest => (t.toList.map env.foldCase).isPrefixOf rest)

/-- The call `QString::toUShort(&ok)` on the text of a line edit whose validator admits
decimal digits only: the value and `true` when the text is non-empty and its value fits
16 bits, `0` and `false` otherwise. -/
def QString.toUShort (s : String) : Nat × Bool :=
  let cs := s.toList
  if cs ≠ [] ∧ cs.all Char.isDigit then
    let v := cs.foldl (fun acc c => 10 * acc + digitValue c) 0
    if v ≤ 65535 then (v, true) else (0, false)
  else (0, false)

/-- The call `QDir::toNativeSeparators`: every `/` becomes the native separator. -/
def toNativeSeparators {σ : Type} (env : Env σ) (path : String) : String :=
  String.mk (path.toList.map (fun c => if c = '/' then env.separator else c))

/-- The path kept by `QDir(path)`: every native separator becomes `/`. -/
def QDir {σ : Type} (env : Env σ) (path : String) : String :=
  String.mk (path.toList.map (fun c => if c = env.separator then '/' else c))

/-- The call `QFileInfo::filePath` of a listed entry: directory and file name, joined by
one `/`. -/
def QFileInfo.filePath (f : QFileInfo) : String :=
  if f.dir = "" ∨ f.dir.toList.getLast? = some '/' then f.dir ++ f.fileName
  else f.dir ++ "/" ++ f.fileName

/-- The call `QFileInfo::baseName`: the file name up to its first `.`. -/
def QFileInfo.baseName (f : QFileInfo) : String :=
  String.mk (f.fileName.toList.takeWhile (fun c => c ≠ '.'))

/-- Whether a name passes the name filter `*.sky`; name filters ignore case. -/
def matchesSky {σ : Type} (env : Env σ) (name : String) : Bool :=
  (".sky".toList.map env.foldCase).isSuffixOf (name.toList.map env.foldCase)

/-- The call `collection.entryInfoList(QStringList(tr("*.sky")))`. -/
def entryInfoList {σ : Type} (env : Env σ) (sys : σ) (collection : String) :
    List QFileInfo :=
  ((env.entryList sys collection).filter (matchesSky env)).map
    (fun name => QFileInfo.mk collection name)

/-- The call `IOFile::ReadBytes` on a freshly opened file: the first `n` bytes, or `none`
when the file holds fewer. -/
def ReadBytes (sky_file : Bytes) (n : Nat) : Option Bytes :=
  if n ≤ sky_file.length then some (sky_file.take n) else none

/-- The portal call `CalculateIDs`, whose result is a pair of `u16`. -/
def CalculateIDs {σ : Type} (env : Env σ) (file_data : Bytes) : Nat × Nat :=
  ((env.CalculateIDs file_data).1 % 65536, (env.CalculateIDs file_data).2 % 65536)

/-- The call `list_skylanders.find(std::make_pair(id, var))`. -/
def find {σ : Type} (env : Env σ) (id var : Nat) : Option SkyData :=
  env.list_skylanders.lookup (id, var)

/-- The call `m_skylander_list->item(row)`; `none` is the null pointer. -/
def QListWidget.item (l : QListWidget) (row : Int) : Option QListWidgetItem :=
  if 0 ≤ row then l.items.get? row.toNat else none

/-- The call `m_skylander_list->currentItem()`. -/
def QListWidget.currentItem (l : QListWidget) : Option QListWidgetItem :=
  l.item l.currentRow

/-- The call `m_skylander_list->count()`. -/
def QListWidget.count (l : QListWidget) : Int := l.items.length

/-! ## Helpers of the window -/

variable {σ : Type}

/-- `SkylanderPortalWindow::GetCurrentSlot`. -/
def GetCurrentSlot (w : SkylanderPortalWindow σ) : Nat :=
  match w.m_slot_radios.find? (fun radio => radio.isChecked) with
  | some radio => (radio.id % 256).toNat
  | none => 0

/-- `SkylanderPortalWindow::GetElementRadio`. -/
def GetElementRadio (w : SkylanderPortalWindow σ) : Int :=
  match w.m_element_filter.find? (fun radio => radio.isChecked) with
  | some radio => radio.id
  | none => -1

/-- `SkylanderPortalWindow::GetBaseColor`; `none` when `list_skylanders.at(ids)` fails. -/
def GetBaseColor (env : Env σ) (ids : Nat × Nat) : Option QColor :=
  match env.list_skylanders.lookup ids with
  | none => none
  | some d =>
    match d.game with
    | .SPYROS_ADV => some (QColor.mk 240 255 240 255)
    | .GIANTS => some (QColor.mk 255 240 215 255)
    | .SWAP_FORCE => some (QColor.mk 240 245 255 255)
    | .TRAP_TEAM => some (QColor.mk 255 240 240 255)
    | .SUPERCHARGERS => some (QColor.mk 247 228 215 255)

/-- `SkylanderPortalWindow::PassesFilter`. -/
def PassesFilter (env : Env σ) (w : SkylanderPortalWindow σ) (name : String)
    (id var : Nat) : Bool :=
  match find env id var with
  | none => false
  | some character =>
    let pass := false
    let pass :=
      if w.m_game_filters .SPYROS_ADV then
        (if character.game = .SPYROS_ADV then true else pass) else pass
    let pass :=
      if w.m_game_filters .GIANTS then
        (if character.game = .GIANTS then true else pass) else pass
    let pass :=
      if w.m_game_filters .SWAP_FORCE then
        (if character.game = .SWAP_FORCE then true else pass) else pass
    let pass :=
      if w.m_game_filters .TRAP_TEAM then
        (if character.game = .TRAP_TEAM then true else pass) else pass
    let pass :=
      if w.m_game_filters .SUPERCHARGERS then
        (if character.game = .SUPERCHARGERS then true else pass) else pass
    if !pass then false
    else if !(QString.contains env name w.m_sky_search) then false
    else
      let radio := GetElementRadio w
      if radio = 1 then (if character.element ≠ .MAGIC then false else true)
      else if radio = 2 then (if character.element ≠ .WATER then false else true)
      else if radio = 3 then (if character.element ≠ .TECH then false else true)
      else if radio = 4 then (if character.element ≠ .FIRE then false else true)
      else if radio = 5 then (if character.element ≠ .EARTH then false else true)
      else if radio = 6 then (if character.element ≠ .LIFE then false else true)
      else if radio = 7 then (if character.element ≠ .AIR then false else true)
      else if radio = 8 then (if character.element ≠ .UNDEAD then false else true)
      else if radio = 9 then (if character.element ≠ .E_OTHER then false else true)
      else true

/-- `SkylanderPortalWindow::GetFilePath`, as the search over the listed files. -/
def GetFilePathLoop (env : Env σ) (sys : σ) (id var : Nat) : List QFileInfo → String
  | [] => ""
  | file :: files =>
    match env.openFile sys file.filePath with
    | none => GetFilePathLoop env sys id var files
    | some sky_file =>
      match ReadBytes sky_file (0x40 * 0x10) with
      | none => GetFilePathLoop env sys id var files
      | some file_data =>
        let ids := CalculateIDs env file_data
        if ids.1 = id ∧ ids.2 = var then file.filePath
        else GetFilePathLoop env sys id var files

/-- `SkylanderPortalWindow::GetFilePath`. -/
def GetFilePath (env : Env σ) (w : SkylanderPortalWindow σ) (id var : Nat) : String :=
  GetFilePathLoop env w.system id var
    (entryInfoList env w.system (QDir env w.m_collection_path))

/-! ## Behind the scenes -/

/-- `SkylanderPortalWindow::UpdateCurrentIDs`, the handler of `itemSelectionChanged`.
The source dereferences the current item; without one the model changes nothing. -/
def UpdateCurrentIDs (w : SkylanderPortalWindow σ) : SkylanderPortalWindow σ :=
  match w.m_skylander_list.currentItem with
  | none => w
  | some item =>
    let sky_info := item.data % 2 ^ 32
    if sky_info ≠ 0xFFFFFFFF then
      { w with sky_id := (sky_info >>> 16) % 65536, sky_var := (sky_info &&& 0xFFFF) % 65536 }
    else w

/-- The value stored with an item: `(id << 16) | var` as a 32-bit unsigned number. -/
def qvar (id var : Nat) : Nat := ((id <<< 16) ||| var) % 2 ^ 32

/-- One round of the loop over the collection folder in `RefreshList`: the item added
for a file, or `none` when the round adds nothing. -/
def collectionItem (env : Env σ) (w : SkylanderPortalWindow σ) (file : QFileInfo) :
    Option QListWidgetItem :=
  match env.openFile w.system file.filePath with
  | none => none
  | some sky_file =>
    match ReadBytes sky_file (0x40 * 0x10) with
    | none => none
    | some file_data =>
      let ids := CalculateIDs env file_data
      if PassesFilter env w file.baseName ids.1 ids.2 then
        some (QListWidgetItem.mk file.baseName (qvar ids.1 ids.2) (GetBaseColor env ids))
      else none

/-- One round of the loop over `list_skylanders` in `RefreshList`. -/
def databaseItem (env : Env σ) (w : SkylanderPortalWindow σ)
    (entry : (Nat × Nat) × SkyData) : Option QListWidgetItem :=
  let id := entry.1.1
  let var := entry.1.2
  if PassesFilter env w (tr entry.2.name) id var then
    some (QListWidgetItem.mk (tr entry.2.name) (qvar entry.1.1 entry.1.2)
      (GetBaseColor env entry.1))
  else none

/-- The call `setCurrentItem(item(row), Select)` on the list that `RefreshList` has just
rebuilt, where nothing is current or selected: a null item changes nothing; a real item
becomes current and selected, and the selection change runs `UpdateCurrentIDs`. -/
def setCurrentItem (w : SkylanderPortalWindow σ) (row : Int) : SkylanderPortalWindow σ :=
  match w.m_skylander_list.item row with
  | none => w
  | some _ =>
    UpdateCurrentIDs { w with m_skylander_list := { w.m_skylander_list with currentRow := row } }

/-- The items with which `RefreshList` fills the emptied list: from the files of the
collection folder when `Only Show Files in Collection` is checked, from
`list_skylanders` otherwise. -/
def RefreshListItems (env : Env σ) (w : SkylanderPortalWindow σ) : List QListWidgetItem :=
  if w.m_only_show_collection then
    (entryInfoList env w.system (QDir env w.m_collection_path)).filterMap
      (collectionItem env w)
  else
    env.list_skylanders.filterMap (databaseItem env w)

/-- The end of `RefreshList`: the selection is put back on the rebuilt list. -/
def restoreCurrent (w : SkylanderPortalWindow σ) (row : Int) : SkylanderPortalWindow σ :=
  if w.m_skylander_list.count ≥ row then
    setCurrentItem w row
  else if w.m_skylander_list.count > 0 then
    setCurrentItem w (w.m_skylander_list.count - 1)
  else w

/-- `SkylanderPortalWindow::RefreshList`. -/
def RefreshList (env : Env σ) (w : SkylanderPortalWindow σ) : SkylanderPortalWindow σ :=
  let row := w.m_skylander_list.currentRow
  restoreCurrent
    { w with m_skylander_list := QListWidget.mk (RefreshListItems env w) (-1) } row

/-- The text `UpdateSlotNames` shows for one slot. -/
def display_string (env : Env σ) (slot : Option Skylander) : String :=
  match slot with
  | some sd =>
    match find env sd.sky_id sd.sky_var with
    | some found_sky => found_sky.name
    | none =>
      QString.arg (QString.arg (tr "Unknown (Id:%1 Var:%2)") (toString sd.sky_id))
        (toString sd.sky_var)
  | none => tr "None"

/-- `SkylanderPortalWindow::UpdateSlotNames`. -/
def UpdateSlotNames (env : Env σ) (w : SkylanderPortalWindow σ) : SkylanderPortalWindow σ :=
  (List.range env.MAX_SKYLANDERS).foldl
    (fun w i =>
      { w with m_edit_skylanders :=
          w.m_edit_skylanders.set i (display_string env (w.m_sky_slots.getD i none)) })
    w

/-- Append an outside call to the log. -/
def record (w : SkylanderPortalWindow σ) (e : Event) : SkylanderPortalWindow σ :=
  { w with log := w.log ++ [e] }

/-! ## User interface -/

/-- `SkylanderPortalWindow::ClearSlot`. -/
def ClearSlot (env : Env σ) (w : SkylanderPortalWindow σ) (slot : Nat) :
    SkylanderPortalWindow σ :=
  match w.m_sky_slots.getD slot none with
  | some slot_infos =>
    let removed := env.RemoveSkylander w.system slot_infos.portal_slot
    let w := record { w with system := removed.2 } (.RemoveSkylander slot_infos.portal_slot)
    if !removed.1 then
      record w (.warning (tr "Failed to clear Skylander!")
        (QString.arg (tr "Failed to clear the Skylander from slot(%1)!\n") (toString slot)))
    else
      let w := { w with m_sky_slots := w.m_sky_slots.set slot none }
      let w := if w.m_only_show_collection then RefreshList env w else w
      UpdateSlotNames env w
  | none => w

/-- `SkylanderPortalWindow::LoadSkyfilePath`. -/
def LoadSkyfilePath (env : Env σ) (w : SkylanderPortalWindow σ) (slot : Nat)
    (path : String) : SkylanderPortalWindow σ :=
  match env.openFile w.system path with
  | none =>
    record w (.warning (tr "Failed to open the Skylander file!")
      (QString.arg
        (tr "Failed to open the Skylander file(%1)!\nFile may already be in use on the portal.")
        path))
  | some sky_file =>
    match ReadBytes sky_file (0x40 * 0x10) with
    | none =>
      record w (.warning (tr "Failed to read the Skylander file!")
        (QString.arg (tr "Failed to read the Skylander file(%1)!\nFile was too small.") path))
    | some file_data =>
      let w := ClearSlot env w slot
      let id_var := CalculateIDs env file_data
      let loaded := env.LoadSkylander w.system file_data path
      let portal_slot := loaded.1 % 256
      let w := record { w with system := loaded.2 } (.LoadSkylander file_data path)
      if portal_slot = 0xFF then
        record w (.warning (tr "Failed to load the Skylander file!")
          (QString.arg (tr "Failed to load the Skylander file(%1)!\n") path))
      else
        let w :=
          { w with m_sky_slots :=
              w.m_sky_slots.set slot (some (Skylander.mk portal_slot id_var.1 id_var.2)) }
        UpdateSlotNames env (RefreshList env w)

/-- `SkylanderPortalWindow::CreateSkyfile`. -/
def CreateSkyfile (env : Env σ) (w : SkylanderPortalWindow σ) (path : String)
    (loadAfter : Bool) : SkylanderPortalWindow σ :=
  let created := env.CreateSkylander w.system path w.sky_id w.sky_var
  let w := record { w with system := created.2 } (.CreateSkylander path w.sky_id w.sky_var)
  if !created.1 then
    record w (.warning (tr "Failed to create Skylander file!")
      (QString.arg (tr "Failed to create Skylander file:\n%1") path))
  else
    let w := { w with m_last_skylander_path := env.absolutePath w.system path ++ "/" }
    if loadAfter then LoadSkyfilePath env w (GetCurrentSlot w) path else w

/-- The default file name built in `LoadSelected` and in the handler of the `Create`
button: the base directory followed by the name of the figure, or by the `Unknown`
template when the pair is not in `list_skylanders`. The call `str.arg(sky_id, sky_var)`
with two numbers is `QString::arg(a, fieldWidth)`. -/
def predef_name (env : Env σ) (base : String) (sky_id sky_var : Nat) : String :=
  match find env sky_id sky_var with
  | some found_sky => base ++ (found_sky.name ++ ".sky")
  | none => base ++ QString.argWidth (tr "Unknown(%1 %2).sky") sky_id sky_var

/-- The handler of the `Create` button of the dialog opened by
`SkylanderPortalWindow::CreateSkylanderAdvanced`. `edit_id` and `edit_var` are the texts of
the two line edits and `file_path` is what the save dialog returns if it is opened. -/
def CreateSkylanderAdvanced_accepted (env : Env σ) (w : SkylanderPortalWindow σ)
    (edit_id edit_var : String) (file_path : String) : SkylanderPortalWindow σ :=
  let w := { w with sky_id := (QString.toUShort edit_id).1 }
  if !(QString.toUShort edit_id).2 then
    record w (.warning (tr "Error converting value") (tr "ID entered is invalid!"))
  else
    let w := { w with sky_var := (QString.toUShort edit_var).1 }
    if !(QString.toUShort edit_var).2 then
      record w (.warning (tr "Error converting value") (tr "Variant entered is invalid!"))
    else
      let name := predef_name env w.m_last_skylander_path w.sky_id w.sky_var
      let w := record w (.getSaveFileName (tr "Create Skylander File") name)
      if file_path = "" then w
      else record (CreateSkyfile env w file_path true) .accept

/-- `SkylanderPortalWindow::SelectCollectionPath`; `chosen` is what the directory chooser
returns, the empty string when it is cancelled. -/
def SelectCollectionPath (env : Env σ) (w : SkylanderPortalWindow σ) (chosen : String) :
    SkylanderPortalWindow σ :=
  let w := record w (.getExistingDirectory (tr "Select Skylander Collection")
    w.m_collection_path)
  let dir := toNativeSeparators env chosen
  let dir' := if dir ≠ "" then dir.push env.separator else dir
  let w := if dir ≠ "" then { w with m_path_edit := dir', m_collection_path := dir' } else w
  let w := { w with MAIN_SKYLANDERS_PATH := dir' }
  if w.m_only_show_collection then RefreshList env w else w

/-- `SkylanderPortalWindow::LoadSelected`; `createFileResponse` tells whether the
question `Create new file?` is answered with `Yes`, if it is asked. -/
def LoadSelected (env : Env σ) (w : SkylanderPortalWindow σ) (createFileResponse : Bool) :
    SkylanderPortalWindow σ :=
  if !w.m_emulating then w
  else
    let slot := GetCurrentSlot w
    let file_path : Option String :=
      if w.m_only_show_collection then
        match w.m_skylander_list.currentItem with
        | none => none
        | some item => some (w.m_collection_path ++ item.text ++ tr ".sky")
      else some (GetFilePath env w w.sky_id w.sky_var)
    match file_path with
    | none => w
    | some file_path =>
      if file_path = "" then
        let w := record w (.question (tr "Create Skylander File")
          (tr "Skylander not found in this collection. Create new file?"))
        if createFileResponse then
          CreateSkyfile env w (predef_name env w.m_collection_path w.sky_id w.sky_var) true
        else w
      else
        let w :=
          { w with m_last_skylander_path := env.absolutePath w.system file_path ++ tr "/" }
        LoadSkyfilePath env w slot file_path

/-- The slot radio buttons as `SkylanderPortalWindow::CreatePortalGroup` builds them: one
per slot, radio `i` with `i` in its `id` property, and the first one checked. -/
def CreatePortalGroup_slot_radios (env : Env σ) : List QRadioButton :=
  (List.range env.MAX_SKYLANDERS).map
    (fun (i : Nat) => QRadioButton.mk (i == 0) (Int.ofNat i))

/-- One round of the loop of `UpdateSlotNames`: the text of slot `i` is set. -/
def setSlotName (env : Env σ) (w : SkylanderPortalWindow σ) (i : Nat) :
    SkylanderPortalWindow σ :=
  { w with m_edit_skylanders :=
      w.m_edit_skylanders.set i (display_string env (w.m_sky_slots.getD i none)) }

/-- The element radio buttons as `SkylanderPortalWindow::CreateSearchGroup` builds them:
ten radios, radio `i` with `i` in its `id` property, and the first one (`All`) checked. -/
def CreateSearchGroup_element_filter : List QRadioButton :=
  (List.range 10).map (fun (i : Nat) => QRadioButton.mk (i == 0) (Int.ofNat i))

/-- The part of the state that is not display: everything but the list widget, the
current ids and the slot texts. -/
structure Backing (σ : Type) where
  m_sky_slots : List (Option Skylander)
  m_emulating : Bool
  m_slot_radios : List QRadioButton
  m_last_skylander_path : String
  m_collection_path : String
  m_path_edit : String
  m_game_filters : Game → Bool
  m_element_filter : List QRadioButton
  m_only_show_collection : Bool
  m_sky_search : String
  MAIN_SKYLANDERS_PATH : String
  system : σ
  log : List Event

/-- The part of a window state that is not display. -/
def backing (w : SkylanderPortalWindow σ) : Backing σ :=
  { m_sky_slots := w.m_sky_slots
    m_emulating := w.m_emulating
    m_slot_radios := w.m_slot_radios
    m_last_skylander_path := w.m_last_skylander_path
    m_collection_path := w.m_collection_path
    m_path_edit := w.m_path_edit
    m_game_filters := w.m_game_filters
    m_element_filter := w.m_element_filter
    m_only_show_collection := w.m_only_show_collection
    m_sky_search := w.m_sky_search
    MAIN_SKYLANDERS_PATH := w.MAIN_SKYLANDERS_PATH
    system := w.system
    log := w.log }

/-- The files the claim about `GetFilePath` speaks of, in its words: a listed file that
can be opened, yields a full `0x400` bytes, and whose `CalculateIDs` is `(id, var)`. -/
def holdsFigure (env : Env σ) (sys : σ) (id var : Nat) (file : QFileInfo) : Bool :=
  match env.openFile sys file.filePath with
  | none => false
  | some sky_file =>
    decide (0x400 ≤ sky_file.length) &&
      decide (CalculateIDs env (sky_file.take 0x400) = (id, var))

/-! ## A sample environment -/

/-- A small portal and file system to evaluate the handlers on: the system state counts
the figures on the portal, removal works for portal slots below that count, and loading
takes the next portal slot while there are fewer than four figures. -/
def sampleEnv : Env Nat :=
  { MAX_SKYLANDERS := 4
    list_skylanders :=
      [((1, 0), SkyData.mk "Alpha" Game.SPYROS_ADV Element.MAGIC),
       ((2, 0), SkyData.mk "Beta" Game.GIANTS Element.WATER),
       ((2, 1), SkyData.mk "Beta Two" Game.GIANTS Element.FIRE),
       ((3, 0), SkyData.mk "Gamma" Game.TRAP_TEAM Element.E_OTHER)]
    foldCase := Char.toLower
    separator := '/'
    absolutePath := fun _ _ => "/sky"
    CalculateIDs := fun d =>
      (d.getD 0x10 0 + 256 * d.getD 0x11 0, d.getD 0x1C 0 + 256 * d.getD 0x1D 0)
    RemoveSkylander := fun n p => (decide (p < n), n - 1)
    LoadSkylander := fun n _ _ => if n < 4 then (n, n + 1) else (0xFF, n)
    CreateSkylander := fun n _ _ _ => (true, n)
    openFile := fun _ path =>
      if path = "/sky/beta.sky" then
        some (List.replicate 0x400 2)
      else if path = "/sky/a_short.sky" then some [1, 2, 3]
      else none
    entryList := fun _ dir =>
      if dir = "/sky/" then ["a_locked.sky", "a_short.sky", "beta.sky", "notes.txt"]
      else [] }

/-- The sample environment with a portal that refuses every figure. -/
def fullEnv : Env Nat :=
  { sampleEnv with LoadSkylander := fun n _ _ => (0xFF, n) }

/-- A window with four slots, the second of which holds a figure on portal slot `0`;
`n` is the state of the system. -/
def sampleWindow (n : Nat) : SkylanderPortalWindow Nat :=
  { m_edit_skylanders := ["None", "Alpha", "None", "None"]
    m_sky_slots := [none, some (Skylander.mk 0 1 0), none, none]
    m_emulating := true
    m_slot_radios := [QRadioButton.mk false 0, QRadioButton.mk true 1,
      QRadioButton.mk false 2, QRadioButton.mk false 3]
    m_last_skylander_path := "/sky/"
    m_collection_path := "/sky/"
    m_path_edit := "/sky/"
    m_game_filters := fun _ => true
    m_element_filter := (List.range 10).map
      (fun (i : Nat) => QRadioButton.mk (i == 0) (Int.ofNat i))
    m_only_show_collection := false
    m_sky_search := ""
    m_skylander_list := QListWidget.mk [] (-1)
    sky_id := 5
    sky_var := 7
    MAIN_SKYLANDERS_PATH := "/sky/"
    system := n
    log := [] }

/-- The sample window with element radio `k` as the checked one. -/
def sampleWindowElement (k : Nat) : SkylanderPortalWindow Nat :=
  { sampleWindow 0 with
    m_element_filter := (List.range 10).map
      (fun (i : Nat) => QRadioButton.mk (i == k) (Int.ofNat i)) }

/-! ## What the behind-the-scenes functions leave alone -/

/-- `UpdateCurrentIDs` writes `sky_id` and `sky_var` only. -/
theorem UpdateCurrentIDs_frame (w : SkylanderPortalWindow σ) :
    ∃ i v, UpdateCurrentIDs w = { w with sky_id := i, sky_var := v } := by
  unfold UpdateCurrentIDs
  cases w.m_skylander_list.currentItem with
  | none => exact ⟨w.sky_id, w.sky_var, rfl⟩
  | some item =>
    by_cases h : item.data % 2 ^ 32 ≠ 0xFFFFFFFF
    · exact ⟨_, _, if_pos h⟩
    · exact ⟨w.sky_id, w.sky_var, if_neg h⟩

/-- `setCurrentItem` writes the list widget, `sky_id` and `sky_var` only. -/
theorem setCurrentItem_frame (w : SkylanderPortalWindow σ) (row : Int) :
    ∃ l i v, setCurrentItem w row = { w with m_skylander_list := l, sky_id := i, sky_var := v } := by
  unfold setCurrentItem
  cases w.m_skylander_list.item row with
  | none => exact ⟨w.m_skylander_list, w.sky_id, w.sky_var, rfl⟩
  | some item =>
    obtain ⟨i, v, h⟩ := UpdateCurrentIDs_frame
      { w with m_skylander_list := { w.m_skylander_list with currentRow := row } }
    exact ⟨_, i, v, h⟩

/-- `restoreCurrent` writes the list widget, `sky_id` and `sky_var` only. -/
theorem restoreCurrent_frame (w : SkylanderPortalWindow σ) (row : Int) :
    ∃ l i v, restoreCurrent w row = { w with m_skylander_list := l, sky_id := i, sky_var := v } := by
  unfold restoreCurrent
  by_cases h1 : w.m_skylander_list.count ≥ row
  · rw [if_pos h1]
    exact setCurrentItem_frame w row
  · rw [if_neg h1]
    by_cases h2 : w.m_skylander_list.count > 0
    · rw [if_pos h2]
      exact setCurrentItem_frame w _
    · rw [if_neg h2]
      exact ⟨w.m_skylander_list, w.sky_id, w.sky_var, rfl⟩

/-- `RefreshList` writes the list widget, `sky_id` and `sky_var` only. -/
theorem RefreshList_frame (env : Env σ) (w : SkylanderPortalWindow σ) :
    ∃ l i v, RefreshList env w = { w with m_skylander_list := l, sky_id := i, sky_var := v } := by
  obtain ⟨l, i, v, h⟩ := restoreCurrent_frame
    { w with m_skylander_list := QListWidget.mk (RefreshListItems env w) (-1) }
    w.m_skylander_list.currentRow
  exact ⟨l, i, v, h⟩

/-- `UpdateSlotNames` writes the slot texts only. -/
theorem UpdateSlotNames_frame (env : Env σ) (w : SkylanderPortalWindow σ) :
    ∃ e, UpdateSlotNames env w = { w with m_edit_skylanders := e } := by
  unfold UpdateSlotNames
  generalize List.range env.MAX_SKYLANDERS = is
  induction is generalizing w with
  | nil => exact ⟨w.m_edit_skylanders, rfl⟩
  | cons i is ih =>
    rw [List.foldl_cons]
    obtain ⟨e, h⟩ := ih
      { w with m_edit_skylanders :=
          w.m_edit_skylanders.set i (display_string env (w.m_sky_slots.getD i none)) }
    exact ⟨e, h⟩

/-- `RefreshList` touches display only. -/
theorem RefreshList_backing (env : Env σ) (w : SkylanderPortalWindow σ) :
    backing (RefreshList env w) = backing w := by
  obtain ⟨l, i, v, h⟩ := RefreshList_frame env w
  rw [h]
  rfl

/-- `UpdateSlotNames` touches display only. -/
theorem UpdateSlotNames_backing (env : Env σ) (w : SkylanderPortalWindow σ) :
    backing (UpdateSlotNames env w) = backing w := by
  obtain ⟨e, h⟩ := UpdateSlotNames_frame env w
  rw [h]
  rfl

@[simp] theorem RefreshList_m_sky_slots (env : Env σ) (w : SkylanderPortalWindow σ) :
    (RefreshList env w).m_sky_slots = w.m_sky_slots :=
  congrArg Backing.m_sky_slots (RefreshList_backing env w)

@[simp] theorem RefreshList_system (env : Env σ) (w : SkylanderPortalWindow σ) :
    (RefreshList env w).system = w.system :=
  congrArg Backing.system (RefreshList_backing env w)

@[simp] theorem RefreshList_log (env : Env σ) (w : SkylanderPortalWindow σ) :
    (RefreshList env w).log = w.log :=
  congrArg Backing.log (RefreshList_backing env w)

@[simp] theorem UpdateSlotNames_m_sky_slots (env : Env σ) (w : SkylanderPortalWindow σ) :
    (UpdateSlotNames env w).m_sky_slots = w.m_sky_slots :=
  congrArg Backing.m_sky_slots (UpdateSlotNames_backing env w)

@[simp] theorem UpdateSlotNames_system (env : Env σ) (w : SkylanderPortalWindow σ) :
    (UpdateSlotNames env w).system = w.system :=
  congrArg Backing.system (UpdateSlotNames_backing env w)

@[simp] theorem UpdateSlotNames_log (env : Env σ) (w : SkylanderPortalWindow σ) :
    (UpdateSlotNames env w).log = w.log :=
  congrArg Backing.log (UpdateSlotNames_backing env w)

/-! ## Clearing a slot -/

/-- An empty slot: `ClearSlot` does nothing at all. -/
theorem ClearSlot_of_empty (env : Env σ) (w : SkylanderPortalWindow σ) (slot : Nat)
    (h : w.m_sky_slots.getD slot none = none) : ClearSlot env w slot = w := by
  unfold ClearSlot
  rw [h]

/-- An occupied slot whose removal fails: the portal call and a warning, nothing else. -/
theorem ClearSlot_of_failure (env : Env σ) (w : SkylanderPortalWindow σ) (slot : Nat)
    (sd : Skylander) (h : w.m_sky_slots.getD slot none = some sd)
    (hrem : (env.RemoveSkylander w.system sd.portal_slot).1 = false) :
    ∃ title text, ClearSlot env w slot =
      { w with
        system := (env.RemoveSkylander w.system sd.portal_slot).2
        log := w.log ++ [Event.RemoveSkylander sd.portal_slot] ++ [Event.warning title text] } := by
  unfold ClearSlot
  rw [h]
  simp only [hrem, record, Bool.not_false, if_true]
  exact ⟨_, _, rfl⟩

/-- An occupied slot whose removal works: the slot is emptied and one portal call is
made; the rest of what `ClearSlot` does is display. -/
theorem ClearSlot_of_success (env : Env σ) (w : SkylanderPortalWindow σ) (slot : Nat)
    (sd : Skylander) (h : w.m_sky_slots.getD slot none = some sd)
    (hrem : (env.RemoveSkylander w.system sd.portal_slot).1 = true) :
    (ClearSlot env w slot).m_sky_slots = w.m_sky_slots.set slot none ∧
      (ClearSlot env w slot).system = (env.RemoveSkylander w.system sd.portal_slot).2 ∧
      (ClearSlot env w slot).log = w.log ++ [Event.RemoveSkylander sd.portal_slot] := by
  unfold ClearSlot
  rw [h]
  simp only [hrem, record, Bool.not_true, Bool.false_eq_true, if_false]
  by_cases hc : w.m_only_show_collection = true
  · simp [hc]
  · simp [hc]

/-- Whatever happens, `ClearSlot` leaves every slot other than its own alone, and its own
slot either keeps its record or becomes empty. -/
theorem ClearSlot_slots (env : Env σ) (w : SkylanderPortalWindow σ) (slot : Nat) :
    (ClearSlot env w slot).m_sky_slots = w.m_sky_slots ∨
      (ClearSlot env w slot).m_sky_slots = w.m_sky_slots.set slot none := by
  cases h : w.m_sky_slots.getD slot none with
  | none => exact Or.inl (by rw [ClearSlot_of_empty env w slot h])
  | some sd =>
    cases hrem : (env.RemoveSkylander w.system sd.portal_slot).1 with
    | false =>
      obtain ⟨title, text, hc⟩ := ClearSlot_of_failure env w slot sd h hrem
      exact Or.inl (by rw [hc])
    | true => exact Or.inr (ClearSlot_of_success env w slot sd h hrem).1

/-! ## Loading a file into a slot -/

/-- C1: when the file cannot be opened, or holds fewer than `0x40 * 0x10` bytes,
`LoadSkyfilePath` only shows a warning: the state afterwards is the state before with one
warning added to the log, so `m_sky_slots` is unchanged and the portal is not called. -/
theorem LoadSkyfilePath_unreadable (env : Env σ) (w : SkylanderPortalWindow σ) (slot : Nat)
    (path : String)
    (h : env.openFile w.system path = none ∨
      ∃ sky_file, env.openFile w.system path = some sky_file ∧ sky_file.length < 0x40 * 0x10) :
    (∃ title text,
        LoadSkyfilePath env w slot path = { w with log := w.log ++ [Event.warning title text] }) ∧
      (LoadSkyfilePath env w slot path).m_sky_slots = w.m_sky_slots ∧
      (LoadSkyfilePath env w slot path).system = w.system ∧
      (∀ e ∈ (LoadSkyfilePath env w slot path).log,
        e ∈ w.log ∨ ∃ title text, e = Event.warning title text) := by
  have key : ∃ title text,
      LoadSkyfilePath env w slot path = { w with log := w.log ++ [Event.warning title text] } := by
    unfold LoadSkyfilePath
    rcases h with h | ⟨sky_file, h, hlen⟩
    · rw [h]
      exact ⟨_, _, rfl⟩
    · have hr : ReadBytes sky_file (0x40 * 0x10) = none := by
        unfold ReadBytes
        rw [if_neg (by omega)]
      simp only [h, hr]
      exact ⟨_, _, rfl⟩
  obtain ⟨title, text, hk⟩ := key
  refine ⟨⟨title, text, hk⟩, by rw [hk], by rw [hk], ?_⟩
  rw [hk]
  intro e he
  rcases List.mem_append.1 he with he | he
  · exact Or.inl he
  · exact Or.inr ⟨title, text, List.mem_singleton.1 he⟩

/-- C1 at a file that is too short and at a file that cannot be opened. -/
theorem LoadSkyfilePath_unreadable_witness :
    (LoadSkyfilePath sampleEnv (sampleWindow 1) 1 "/sky/a_short.sky").m_sky_slots =
        (sampleWindow 1).m_sky_slots ∧
      (LoadSkyfilePath sampleEnv (sampleWindow 1) 1 "/sky/a_short.sky").system =
        (sampleWindow 1).system ∧
      (LoadSkyfilePath sampleEnv (sampleWindow 1) 1 "/sky/a_locked.sky").m_sky_slots =
        (sampleWindow 1).m_sky_slots ∧
      (LoadSkyfilePath sampleEnv (sampleWindow 1) 1 "/sky/a_locked.sky").system =
        (sampleWindow 1).system :=
  ⟨(LoadSkyfilePath_unreadable sampleEnv (sampleWindow 1) 1 "/sky/a_short.sky"
      (Or.inr ⟨[1, 2, 3], by decide, by decide⟩)).2.1,
    (LoadSkyfilePath_unreadable sampleEnv (sampleWindow 1) 1 "/sky/a_short.sky"
      (Or.inr ⟨[1, 2, 3], by decide, by decide⟩)).2.2.1,
    (LoadSkyfilePath_unreadable sampleEnv (sampleWindow 1) 1 "/sky/a_locked.sky"
      (Or.inl (by decide))).2.1,
    (LoadSkyfilePath_unreadable sampleEnv (sampleWindow 1) 1 "/sky/a_locked.sky"
      (Or.inl (by decide))).2.2.1⟩

/-- A file that is read in full: `LoadSkyfilePath` clears the slot, asks the portal to
load the bytes, and either warns or records the figure and refreshes the display. -/
theorem LoadSkyfilePath_of_read (env : Env σ) (w : SkylanderPortalWindow σ) (slot : Nat)
    (path : String) (sky_file : Bytes) (hopen : env.openFile w.system path = some sky_file)
    (hfull : 0x40 * 0x10 ≤ sky_file.length) :
    LoadSkyfilePath env w slot path =
      if (env.LoadSkylander (ClearSlot env w slot).system (sky_file.take (0x40 * 0x10)) path).1
          % 256 = 0xFF then
        record
          (record
            { ClearSlot env w slot with
              system := (env.LoadSkylander (ClearSlot env w slot).system
                (sky_file.take (0x40 * 0x10)) path).2 }
            (Event.LoadSkylander (sky_file.take (0x40 * 0x10)) path))
          (Event.warning (tr "Failed to load the Skylander file!")
            (QString.arg (tr "Failed to load the Skylander file(%1)!\n") path))
      else
        UpdateSlotNames env (RefreshList env
          { record
              { ClearSlot env w slot with
                system := (env.LoadSkylander (ClearSlot env w slot).system
                  (sky_file.take (0x40 * 0x10)) path).2 }
              (Event.LoadSkylander (sky_file.take (0x40 * 0x10)) path) with
            m_sky_slots := (ClearSlot env w slot).m_sky_slots.set slot
              (some (Skylander.mk
                ((env.LoadSkylander (ClearSlot env w slot).system
                  (sky_file.take (0x40 * 0x10)) path).1 % 256)
                (CalculateIDs env (sky_file.take (0x40 * 0x10))).1
                (CalculateIDs env (sky_file.take (0x40 * 0x10))).2)) }) := by
  have hr : ReadBytes sky_file (0x40 * 0x10) = some (sky_file.take (0x40 * 0x10)) := by
    unfold ReadBytes
    rw [if_pos hfull]
  unfold LoadSkyfilePath
  simp only [hopen, hr]
  rfl

/-- Writing a slot after `ClearSlot` gives the same array as writing it directly. -/
theorem ClearSlot_set (env : Env σ) (w : SkylanderPortalWindow σ) (slot : Nat)
    (x : Option Skylander) :
    (ClearSlot env w slot).m_sky_slots.set slot x = w.m_sky_slots.set slot x := by
  rcases ClearSlot_slots env w slot with h | h
  · rw [h]
  · rw [h, List.set_set]

/-- `ClearSlot` leaves every other slot as it was. -/
theorem ClearSlot_other (env : Env σ) (w : SkylanderPortalWindow σ) (slot t : Nat)
    (ht : t ≠ slot) : (ClearSlot env w slot).m_sky_slots[t]? = w.m_sky_slots[t]? := by
  rcases ClearSlot_slots env w slot with h | h
  · rw [h]
  · rw [h, List.getElem?_set_ne (Ne.symm ht)]

/-- C2: for a slot of the array and a file read in full, when the portal's `LoadSkylander`
returns a portal slot `p` other than `0xFF`, `m_sky_slots[slot]` afterwards is exactly the
record of `p` and of the pair `CalculateIDs` gives for the bytes read, and every other
entry of `m_sky_slots` is as before the call. -/
theorem LoadSkyfilePath_records (env : Env σ) (w : SkylanderPortalWindow σ) (slot : Nat)
    (path : String) (sky_file : Bytes) (p id var : Nat)
    (hslot : slot < w.m_sky_slots.length)
    (hopen : env.openFile w.system path = some sky_file)
    (hfull : 0x40 * 0x10 ≤ sky_file.length)
    (hp : (env.LoadSkylander (ClearSlot env w slot).system (sky_file.take (0x40 * 0x10))
      path).1 % 256 = p)
    (hne : p ≠ 0xFF)
    (hids : CalculateIDs env (sky_file.take (0x40 * 0x10)) = (id, var)) :
    (LoadSkyfilePath env w slot path).m_sky_slots[slot]? = some (some (Skylander.mk p id var)) ∧
      ∀ t, t ≠ slot →
        (LoadSkyfilePath env w slot path).m_sky_slots[t]? = w.m_sky_slots[t]? := by
  have hq : (LoadSkyfilePath env w slot path).m_sky_slots =
      w.m_sky_slots.set slot (some (Skylander.mk p id var)) := by
    rw [LoadSkyfilePath_of_read env w slot path sky_file hopen hfull, hp, if_neg hne]
    simp only [UpdateSlotNames_m_sky_slots, RefreshList_m_sky_slots, hids]
    exact ClearSlot_set env w slot _
  rw [hq]
  constructor
  · rw [List.getElem?_set_self hslot]
  · intro t ht
    rw [List.getElem?_set_ne (Ne.symm ht)]

/-- C2 at the sample file, loaded into the occupied second slot of the sample window. -/
theorem LoadSkyfilePath_records_witness :
    (LoadSkyfilePath sampleEnv (sampleWindow 1) 1 "/sky/beta.sky").m_sky_slots[1]? =
        some (some (Skylander.mk 0 514 514)) ∧
      ∀ t, t ≠ 1 →
        (LoadSkyfilePath sampleEnv (sampleWindow 1) 1 "/sky/beta.sky").m_sky_slots[t]? =
          (sampleWindow 1).m_sky_slots[t]? :=
  LoadSkyfilePath_records sampleEnv (sampleWindow 1) 1 "/sky/beta.sky"
    (List.replicate 0x400 2) 0 514 514
    (by decide) rfl (by rw [List.length_replicate]) rfl (by decide) rfl

/-- Reading a slot of the array: an entry that is present is what `getD` returns. -/
theorem getD_of_entry (slots : List (Option Skylander)) (slot : Nat)
    (x : Option Skylander) (h : slots[slot]? = some x) : slots.getD slot none = x := by
  rw [List.getD_eq_getElem?_getD, h]
  rfl

/-- An entry that is present lies inside the array. -/
theorem lt_length_of_entry (slots : List (Option Skylander)) (slot : Nat)
    (x : Option Skylander) (h : slots[slot]? = some x) : slot < slots.length := by
  by_contra hge
  rw [List.getElem?_eq_none (by omega)] at h
  exact Option.noConfusion h

/-- A failed removal leaves the whole array as it was. -/
theorem ClearSlot_failure_slots (env : Env σ) (w : SkylanderPortalWindow σ) (slot : Nat)
    (sd : Skylander) (h : w.m_sky_slots.getD slot none = some sd)
    (hrem : (env.RemoveSkylander w.system sd.portal_slot).1 = false) :
    (ClearSlot env w slot).m_sky_slots = w.m_sky_slots := by
  obtain ⟨title, text, hc⟩ := ClearSlot_of_failure env w slot sd h hrem
  rw [hc]

/-- A successful removal empties the slot. -/
theorem ClearSlot_success_slot (env : Env σ) (w : SkylanderPortalWindow σ) (slot : Nat)
    (sd : Skylander) (hocc : w.m_sky_slots[slot]? = some (some sd))
    (hrem : (env.RemoveSkylander w.system sd.portal_slot).1 = true) :
    (ClearSlot env w slot).m_sky_slots[slot]? = some none := by
  rw [(ClearSlot_of_success env w slot sd (getD_of_entry _ _ _ hocc) hrem).1,
    List.getElem?_set_self (lt_length_of_entry _ _ _ hocc)]

/-- C3: `ClearSlot` changes no slot record when nothing can be removed. On an empty slot
it changes nothing at all, so it makes no portal call; on an occupied slot whose
`RemoveSkylander(portal_slot)` returns false the whole array `m_sky_slots` is as before
and the log gains that one portal call followed by a warning. -/
theorem ClearSlot_nothing_removed (env : Env σ) (w : SkylanderPortalWindow σ) (slot : Nat) :
    (w.m_sky_slots.getD slot none = none → ClearSlot env w slot = w) ∧
      ∀ sd, w.m_sky_slots.getD slot none = some sd →
        (env.RemoveSkylander w.system sd.portal_slot).1 = false →
        (ClearSlot env w slot).m_sky_slots = w.m_sky_slots ∧
          ∃ title text, (ClearSlot env w slot).log =
            w.log ++ [Event.RemoveSkylander sd.portal_slot, Event.warning title text] := by
  refine ⟨ClearSlot_of_empty env w slot, ?_⟩
  intro sd h hrem
  obtain ⟨title, text, hc⟩ := ClearSlot_of_failure env w slot sd h hrem
  rw [hc]
  exact ⟨rfl, title, text, by simp⟩

/-- C3 at the sample window: its first slot is empty, and the removal from its occupied
second slot fails when the portal holds no figure. -/
theorem ClearSlot_nothing_removed_witness :
    ClearSlot sampleEnv (sampleWindow 0) 0 = sampleWindow 0 ∧
      ((ClearSlot sampleEnv (sampleWindow 0) 1).m_sky_slots = (sampleWindow 0).m_sky_slots ∧
        ∃ title text, (ClearSlot sampleEnv (sampleWindow 0) 1).log =
          (sampleWindow 0).log ++ [Event.RemoveSkylander 0, Event.warning title text]) :=
  ⟨(ClearSlot_nothing_removed sampleEnv (sampleWindow 0) 0).1 (by decide),
    (ClearSlot_nothing_removed sampleEnv (sampleWindow 0) 1).2 (Skylander.mk 0 1 0)
      (by decide) (by decide)⟩

/-- C4: for an occupied slot `s` whose recorded portal slot the portal removes
successfully, after `ClearSlot(s)` the entry `m_sky_slots[s]` is empty, every other entry
is unchanged, and the log gains exactly one call: `RemoveSkylander` with the recorded
`portal_slot`. -/
theorem ClearSlot_removes (env : Env σ) (w : SkylanderPortalWindow σ) (s : Nat)
    (sd : Skylander) (hocc : w.m_sky_slots[s]? = some (some sd))
    (hrem : (env.RemoveSkylander w.system sd.portal_slot).1 = true) :
    (ClearSlot env w s).m_sky_slots[s]? = some none ∧
      (∀ t, t ≠ s → (ClearSlot env w s).m_sky_slots[t]? = w.m_sky_slots[t]?) ∧
      (ClearSlot env w s).log = w.log ++ [Event.RemoveSkylander sd.portal_slot] ∧
      (ClearSlot env w s).system = (env.RemoveSkylander w.system sd.portal_slot).2 := by
  obtain ⟨_, h2, h3⟩ :=
    ClearSlot_of_success env w s sd (getD_of_entry _ _ _ hocc) hrem
  exact ⟨ClearSlot_success_slot env w s sd hocc hrem,
    fun t ht => ClearSlot_other env w s t ht, h3, h2⟩

/-- C4 at the sample window: its second slot holds a figure recorded on portal slot `0`,
so the portal is called with `0` and not with the index `1` of the slot. -/
theorem ClearSlot_removes_witness :
    (ClearSlot sampleEnv (sampleWindow 1) 1).m_sky_slots[1]? = some none ∧
      (∀ t, t ≠ 1 →
        (ClearSlot sampleEnv (sampleWindow 1) 1).m_sky_slots[t]? =
          (sampleWindow 1).m_sky_slots[t]?) ∧
      (ClearSlot sampleEnv (sampleWindow 1) 1).log =
        (sampleWindow 1).log ++ [Event.RemoveSkylander (Skylander.mk 0 1 0).portal_slot] ∧
      (ClearSlot sampleEnv (sampleWindow 1) 1).system =
        (sampleEnv.RemoveSkylander (sampleWindow 1).system (Skylander.mk 0 1 0).portal_slot).2 :=
  ClearSlot_removes sampleEnv (sampleWindow 1) 1 (Skylander.mk 0 1 0) (by decide) (by decide)

/-- C10: for a file read in full, when the portal's `LoadSkylander` returns `0xFF` the new
figure is not recorded: `m_sky_slots` afterwards is what `ClearSlot` left. The slot is
empty if it was empty before or if its figure was removed successfully, it keeps its
record if `RemoveSkylander` failed, and every other entry is unchanged. -/
theorem LoadSkyfilePath_load_failed (env : Env σ) (w : SkylanderPortalWindow σ) (slot : Nat)
    (path : String) (sky_file : Bytes)
    (hopen : env.openFile w.system path = some sky_file)
    (hfull : 0x40 * 0x10 ≤ sky_file.length)
    (hp : (env.LoadSkylander (ClearSlot env w slot).system (sky_file.take (0x40 * 0x10))
      path).1 % 256 = 0xFF) :
    (w.m_sky_slots[slot]? = some none →
        (LoadSkyfilePath env w slot path).m_sky_slots[slot]? = some none) ∧
      (∀ sd, w.m_sky_slots[slot]? = some (some sd) →
        (env.RemoveSkylander w.system sd.portal_slot).1 = true →
        (LoadSkyfilePath env w slot path).m_sky_slots[slot]? = some none) ∧
      (∀ sd, w.m_sky_slots[slot]? = some (some sd) →
        (env.RemoveSkylander w.system sd.portal_slot).1 = false →
        (LoadSkyfilePath env w slot path).m_sky_slots[slot]? = some (some sd)) ∧
      (∀ t, t ≠ slot →
        (LoadSkyfilePath env w slot path).m_sky_slots[t]? = w.m_sky_slots[t]?) := by
  have hq : (LoadSkyfilePath env w slot path).m_sky_slots =
      (ClearSlot env w slot).m_sky_slots := by
    rw [LoadSkyfilePath_of_read env w slot path sky_file hopen hfull, if_pos hp]
    rfl
  rw [hq]
  refine ⟨?_, ?_, ?_, fun t ht => ClearSlot_other env w slot t ht⟩
  · intro h
    rw [ClearSlot_of_empty env w slot (getD_of_entry _ _ _ h), h]
  · intro sd h hrem
    exact ClearSlot_success_slot env w slot sd h hrem
  · intro sd h hrem
    rw [ClearSlot_failure_slots env w slot sd (getD_of_entry _ _ _ h) hrem, h]

/-- C10 at the sample window with a portal that refuses every figure: on the empty first
slot, on the second slot when its figure can be removed, and on the second slot when it
cannot. -/
theorem LoadSkyfilePath_load_failed_witness :
    (LoadSkyfilePath fullEnv (sampleWindow 1) 0 "/sky/beta.sky").m_sky_slots[0]? = some none ∧
      (LoadSkyfilePath fullEnv (sampleWindow 1) 1 "/sky/beta.sky").m_sky_slots[1]? =
        some none ∧
      (LoadSkyfilePath fullEnv (sampleWindow 0) 1 "/sky/beta.sky").m_sky_slots[1]? =
        some (some (Skylander.mk 0 1 0)) ∧
      (∀ t, t ≠ 1 →
        (LoadSkyfilePath fullEnv (sampleWindow 1) 1 "/sky/beta.sky").m_sky_slots[t]? =
          (sampleWindow 1).m_sky_slots[t]?) :=
  ⟨(LoadSkyfilePath_load_failed fullEnv (sampleWindow 1) 0 "/sky/beta.sky"
      (List.replicate 0x400 2) rfl (by rw [List.length_replicate]) rfl).1 (by decide),
    (LoadSkyfilePath_load_failed fullEnv (sampleWindow 1) 1 "/sky/beta.sky"
      (List.replicate 0x400 2) rfl (by rw [List.length_replicate]) rfl).2.1
      (Skylander.mk 0 1 0) (by decide) (by decide),
    (LoadSkyfilePath_load_failed fullEnv (sampleWindow 0) 1 "/sky/beta.sky"
      (List.replicate 0x400 2) rfl (by rw [List.length_replicate]) rfl).2.2.1
      (Skylander.mk 0 1 0) (by decide) (by decide),
    (LoadSkyfilePath_load_failed fullEnv (sampleWindow 1) 1 "/sky/beta.sky"
      (List.replicate 0x400 2) rfl (by rw [List.length_replicate]) rfl).2.2.2⟩

/-! ## The filter -/

/-- `GetElementRadio` returns `-1` or the id of a radio button of the element filter. -/
theorem GetElementRadio_range (w : SkylanderPortalWindow σ)
    (hradio : ∀ r ∈ w.m_element_filter, 0 ≤ r.id ∧ r.id ≤ 9) :
    -1 ≤ GetElementRadio w ∧ GetElementRadio w ≤ 9 := by
  unfold GetElementRadio
  cases h : w.m_element_filter.find? (fun radio => radio.isChecked) with
  | none => exact ⟨le_refl _, by decide⟩
  | some radio =>
    have hmem := List.mem_of_find?_eq_some h
    have hr := hradio radio hmem
    show -1 ≤ radio.id ∧ radio.id ≤ 9
    exact ⟨by omega, hr.2⟩

/-- What `PassesFilter` returns, in terms of the number `GetElementRadio` returns, when
that number is `-1` or an id in `0..9`. -/
theorem PassesFilter_iff_radio (env : Env σ) (w : SkylanderPortalWindow σ) (name : String)
    (id var : Nat) (hradio : ∀ r ∈ w.m_element_filter, 0 ≤ r.id ∧ r.id ≤ 9) :
    PassesFilter env w name id var = true ↔
      ∃ character, env.list_skylanders.lookup (id, var) = some character ∧
        ((character.game = Game.SPYROS_ADV ∨ character.game = Game.GIANTS ∨
            character.game = Game.SWAP_FORCE ∨ character.game = Game.TRAP_TEAM ∨
            character.game = Game.SUPERCHARGERS) ∧
          w.m_game_filters character.game = true) ∧
        QString.contains env name w.m_sky_search = true ∧
        (GetElementRadio w = 0 ∨ GetElementRadio w = -1 ∨
          (1 ≤ GetElementRadio w ∧ GetElementRadio w ≤ 9 ∧
            [Element.MAGIC, Element.WATER, Element.TECH, Element.FIRE, Element.EARTH,
              Element.LIFE, Element.AIR, Element.UNDEAD,
              Element.E_OTHER][(GetElementRadio w - 1).toNat]? = some character.element)) := by
  obtain ⟨hlo, hhi⟩ := GetElementRadio_range w hradio
  unfold PassesFilter find
  cases hfind : env.list_skylanders.lookup (id, var) with
  | none => simp
  | some character =>
    generalize GetElementRadio w = radio at hlo hhi
    generalize QString.contains env name w.m_sky_search = c
    obtain ⟨nm, g, el⟩ := character
    simp only [Option.some.injEq, exists_eq_left']
    cases g <;> cases c <;> simp <;> intro _ <;> interval_cases radio <;> cases el <;> decide

/-- A radio that is checked while none before it is, is the one `find?` returns. -/
theorem find?_of_first_checked (radios : List QRadioButton) (k : Nat) (r : QRadioButton)
    (hr : radios[k]? = some r) (hchecked : r.isChecked = true)
    (hfirst : ∀ (j : Nat) (q : QRadioButton), j < k → radios[j]? = some q →
      q.isChecked = false) :
    radios.find? (fun radio => radio.isChecked) = some r := by
  cases hfind : radios.find? (fun radio => radio.isChecked) with
  | none =>
    have hno := List.find?_eq_none.1 hfind r (List.getElem?_mem hr)
    exact absurd hchecked hno
  | some q =>
    obtain ⟨hq, as, bs, hsplit, has⟩ := List.find?_eq_some.1 hfind
    have hqat : radios[as.length]? = some q := by
      rw [hsplit, List.getElem?_append_right (le_refl _)]
      simp
    have hlen : as.length = k := by
      rcases Nat.lt_trichotomy as.length k with hlt | heq | hgt
      · have hu := hfirst as.length q hlt hqat
        rw [hu] at hq
        exact Bool.noConfusion hq
      · exact heq
      · have hri : as[k]? = some r := by
          rw [← List.getElem?_append_left hgt, ← hsplit]
          exact hr
        have hu := has r (List.getElem?_mem hri)
        rw [hchecked] at hu
        exact Bool.noConfusion hu
    rw [hlen, hr] at hqat
    exact hqat.symm

/-- The radio `find?` returns is checked, and no radio before it is. -/
theorem first_checked_of_find? (radios : List QRadioButton) (q : QRadioButton)
    (hfind : radios.find? (fun radio => radio.isChecked) = some q) :
    ∃ k, radios[k]? = some q ∧ q.isChecked = true ∧
      ∀ (j : Nat) (p : QRadioButton), j < k → radios[j]? = some p → p.isChecked = false := by
  obtain ⟨hq, as, bs, hsplit, has⟩ := List.find?_eq_some.1 hfind
  refine ⟨as.length, ?_, hq, ?_⟩
  · rw [hsplit, List.getElem?_append_right (le_refl _)]
    simp
  · intro j p hj hp
    have hpj : as[j]? = some p := by
      rw [← List.getElem?_append_left hj, ← hsplit]
      exact hp
    have hu := has p (List.getElem?_mem hpj)
    cases hc : p.isChecked with
    | false => rfl
    | true =>
      rw [hc] at hu
      exact Bool.noConfusion hu

/-- Element radios that carry the ids given by `CreateSearchGroup`: radio `k` carries
id `k`, and there are ten of them. -/
theorem element_radio_id (w : SkylanderPortalWindow σ)
    (hbuilt : w.m_element_filter.map QRadioButton.id =
      CreateSearchGroup_element_filter.map QRadioButton.id)
    (k : Nat) (r : QRadioButton) (hr : w.m_element_filter[k]? = some r) :
    r.id = k ∧ k < 10 := by
  have hlen : w.m_element_filter.length = 10 := by
    have h := congrArg List.length hbuilt
    unfold CreateSearchGroup_element_filter at h
    simpa using h
  have hk : k < 10 := by
    obtain ⟨h, _⟩ := List.getElem?_eq_some.1 hr
    omega
  have h := congrArg (fun l : List Int => l[k]?) hbuilt
  unfold CreateSearchGroup_element_filter at h
  simp only [List.getElem?_map, hr, List.getElem?_range hk, Option.map_some'] at h
  exact ⟨Option.some.inj h, hk⟩

/-- C5: with the element radios carrying the ids `0..9` given to them by
`CreateSearchGroup`, `PassesFilter(name, id, var)` is true exactly when `(id, var)` is a
key of `list_skylanders`, the game of the figure is one of the five games and the
checkbox of that game is checked, `name` contains the search text ignoring case, and
either no element radio is checked, or the checked element radio (the first checked one)
is radio `0` (`All`), or it is radio `k` in `1..9` and the element of the figure is the
`k`-th of `MAGIC, WATER, TECH, FIRE, EARTH, LIFE, AIR, UNDEAD, E_OTHER`. -/
theorem PassesFilter_iff (env : Env σ) (w : SkylanderPortalWindow σ) (name : String)
    (id var : Nat)
    (hbuilt : w.m_element_filter.map QRadioButton.id =
      CreateSearchGroup_element_filter.map QRadioButton.id) :
    PassesFilter env w name id var = true ↔
      ∃ character, env.list_skylanders.lookup (id, var) = some character ∧
        ((character.game = Game.SPYROS_ADV ∨ character.game = Game.GIANTS ∨
            character.game = Game.SWAP_FORCE ∨ character.game = Game.TRAP_TEAM ∨
            character.game = Game.SUPERCHARGERS) ∧
          w.m_game_filters character.game = true) ∧
        QString.contains env name w.m_sky_search = true ∧
        ((∀ r ∈ w.m_element_filter, r.isChecked = false) ∨
          ∃ (k : Nat) (r : QRadioButton), w.m_element_filter[k]? = some r ∧
            r.isChecked = true ∧
            (∀ (j : Nat) (q : QRadioButton), j < k → w.m_element_filter[j]? = some q →
              q.isChecked = false) ∧
            (k = 0 ∨ (1 ≤ k ∧ k ≤ 9 ∧
              [Element.MAGIC, Element.WATER, Element.TECH, Element.FIRE, Element.EARTH,
                Element.LIFE, Element.AIR, Element.UNDEAD,
                Element.E_OTHER][k - 1]? = some character.element))) := by
  have hradio : ∀ r ∈ w.m_element_filter, 0 ≤ r.id ∧ r.id ≤ 9 := by
    intro r hr
    obtain ⟨k, hk⟩ := List.mem_iff_getElem?.1 hr
    obtain ⟨hid, hlt⟩ := element_radio_id w hbuilt k r hk
    rw [hid]
    omega
  rw [PassesFilter_iff_radio env w name id var hradio]
  have hget : ∀ q, w.m_element_filter.find? (fun radio => radio.isChecked) = some q →
      GetElementRadio w = q.id := by
    intro q hq
    unfold GetElementRadio
    rw [hq]
  constructor
  · rintro ⟨character, h1, h2, h3, hE⟩
    refine ⟨character, h1, h2, h3, ?_⟩
    cases hfind : w.m_element_filter.find? (fun radio => radio.isChecked) with
    | none =>
      left
      intro r hr
      have hno := List.find?_eq_none.1 hfind r hr
      cases hc : r.isChecked with
      | false => rfl
      | true => exact absurd hc hno
    | some q =>
      right
      obtain ⟨k, hk, hq, hmin⟩ := first_checked_of_find? _ q hfind
      obtain ⟨hid, hlt⟩ := element_radio_id w hbuilt k q hk
      rw [hget q hfind, hid] at hE
      refine ⟨k, q, hk, hq, hmin, ?_⟩
      rcases hE with h0 | hneg | ⟨hlo, hhi, hel⟩
      · left
        omega
      · omega
      · right
        refine ⟨by omega, by omega, ?_⟩
        have hidx : ((k : Int) - 1).toNat = k - 1 := by omega
        rw [hidx] at hel
        exact hel
  · rintro ⟨character, h1, h2, h3, hF⟩
    refine ⟨character, h1, h2, h3, ?_⟩
    rcases hF with hnone | ⟨k, r, hk, hr, hmin, hcond⟩
    · right
      left
      unfold GetElementRadio
      have hfind : w.m_element_filter.find? (fun radio => radio.isChecked) = none := by
        rw [List.find?_eq_none]
        intro r hr
        simp [hnone r hr]
      rw [hfind]
    · have hfind := find?_of_first_checked _ k r hk hr hmin
      obtain ⟨hid, hlt⟩ := element_radio_id w hbuilt k r hk
      rw [hget r hfind, hid]
      rcases hcond with h0 | ⟨hlo, hhi, hel⟩
      · left
        omega
      · right
        right
        refine ⟨by omega, by omega, ?_⟩
        have hidx : ((k : Int) - 1).toNat = k - 1 := by omega
        rw [hidx]
        exact hel

/-- C5 at the sample table, for the figure `(2, 0)`, whose element is `WATER`: with the
`Water` radio (radio `2`) checked it passes; with the `Tech` radio (radio `3`) checked it
does not, and the equivalence is the one stated. -/
theorem PassesFilter_iff_witness :
    PassesFilter sampleEnv (sampleWindowElement 2) "Beta" 2 0 = true ∧
      PassesFilter sampleEnv (sampleWindowElement 3) "Beta" 2 0 = false ∧
      (PassesFilter sampleEnv (sampleWindowElement 3) "Beta" 2 0 = true ↔
        ∃ character, sampleEnv.list_skylanders.lookup (2, 0) = some character ∧
          ((character.game = Game.SPYROS_ADV ∨ character.game = Game.GIANTS ∨
              character.game = Game.SWAP_FORCE ∨ character.game = Game.TRAP_TEAM ∨
              character.game = Game.SUPERCHARGERS) ∧
            (sampleWindowElement 3).m_game_filters character.game = true) ∧
          QString.contains sampleEnv "Beta" (sampleWindowElement 3).m_sky_search = true ∧
          ((∀ r ∈ (sampleWindowElement 3).m_element_filter, r.isChecked = false) ∨
            ∃ (k : Nat) (r : QRadioButton),
              (sampleWindowElement 3).m_element_filter[k]? = some r ∧
              r.isChecked = true ∧
              (∀ (j : Nat) (q : QRadioButton), j < k →
                (sampleWindowElement 3).m_element_filter[j]? = some q →
                q.isChecked = false) ∧
              (k = 0 ∨ (1 ≤ k ∧ k ≤ 9 ∧
                [Element.MAGIC, Element.WATER, Element.TECH, Element.FIRE, Element.EARTH,
                  Element.LIFE, Element.AIR, Element.UNDEAD,
                  Element.E_OTHER][k - 1]? = some character.element)))) :=
  ⟨(PassesFilter_iff sampleEnv (sampleWindowElement 2) "Beta" 2 0 (by decide)).2
      ⟨SkyData.mk "Beta" Game.GIANTS Element.WATER, by decide,
        ⟨Or.inr (Or.inl rfl), rfl⟩, by decide,
        Or.inr ⟨2, QRadioButton.mk true 2, by decide, rfl,
          fun j q hj hq => by
            interval_cases j <;> (rw [← Option.some.inj hq]; rfl),
          Or.inr ⟨by decide, by decide, by decide⟩⟩⟩,
    by decide,
    PassesFilter_iff sampleEnv (sampleWindowElement 3) "Beta" 2 0 (by decide)⟩

/-! ## Looking a figure up in the collection folder -/

/-- The search of `GetFilePath` returns the path of the first listed file that holds the
figure, and the empty string when there is none. -/
theorem GetFilePathLoop_eq_find (env : Env σ) (sys : σ) (id var : Nat)
    (files : List QFileInfo) :
    GetFilePathLoop env sys id var files =
      ((files.find? (holdsFigure env sys id var)).map QFileInfo.filePath).getD "" := by
  induction files with
  | nil => rfl
  | cons file files ih =>
    rw [List.find?_cons]
    unfold GetFilePathLoop holdsFigure
    cases hopen : env.openFile sys file.filePath with
    | none => simpa using ih
    | some sky_file =>
      by_cases hlen : 0x40 * 0x10 ≤ sky_file.length
      · have hr : ReadBytes sky_file (0x40 * 0x10) = some (sky_file.take (0x40 * 0x10)) := by
          unfold ReadBytes
          rw [if_pos hlen]
        by_cases hids : CalculateIDs env (sky_file.take (0x40 * 0x10)) = (id, var)
        · have h1 : (CalculateIDs env (sky_file.take (0x40 * 0x10))).1 = id := by rw [hids]
          have h2 : (CalculateIDs env (sky_file.take (0x40 * 0x10))).2 = var := by rw [hids]
          simp [hr, hlen, hids, h1, h2]
        · have hne : ¬ ((CalculateIDs env (sky_file.take (0x40 * 0x10))).1 = id ∧
              (CalculateIDs env (sky_file.take (0x40 * 0x10))).2 = var) := by
            intro h
            exact hids (Prod.ext h.1 h.2)
          simp only [hr, hne, if_false]
          simpa [hlen, hids] using ih
      · have hr : ReadBytes sky_file (0x40 * 0x10) = none := by
          unfold ReadBytes
          rw [if_neg hlen]
        simp only [hr]
        simpa [hlen] using ih

/-- A file name that passes the filter `*.sky` is not empty, so neither is its path. -/
theorem filePath_ne_empty (env : Env σ) (file : QFileInfo)
    (h : matchesSky env file.fileName = true) : file.filePath ≠ "" := by
  have hsuf : (".sky".toList.map env.foldCase) <:+ (file.fileName.toList.map env.foldCase) :=
    List.isSuffixOf_iff_suffix.1 h
  have hlen := hsuf.length_le
  rw [List.length_map, List.length_map] at hlen
  have h4 : ".sky".toList.length = 4 := by decide
  intro hempty
  have hdata := congrArg (fun s : String => s.data.length) hempty
  unfold QFileInfo.filePath at hdata
  have hname : file.fileName.data.length = file.fileName.toList.length := rfl
  split at hdata
  · simp only [String.data_append, List.length_append, List.length_nil] at hdata
    omega
  · simp only [String.data_append, List.length_append, List.length_nil,
      List.length_singleton] at hdata
    omega

/-- Every file listed by `entryInfoList` has a non-empty path. -/
theorem entryInfoList_filePath_ne_empty (env : Env σ) (sys : σ) (collection : String)
    (file : QFileInfo) (h : file ∈ entryInfoList env sys collection) : file.filePath ≠ "" := by
  unfold entryInfoList at h
  obtain ⟨name, hname, rfl⟩ := List.mem_map.1 h
  exact filePath_ne_empty env _ (List.mem_filter.1 hname).2

/-- C6: `GetFilePath(id, var)` returns the path of the first `*.sky` file, in the listing
order of the collection folder, that can be opened, yields a full `0x400` bytes and
whose `CalculateIDs` is `(id, var)`; it returns the empty string exactly when no listed
file is such a file; and whatever non-empty path it returns is the path of such a file,
so files that cannot be opened or are too short are never returned. -/
theorem GetFilePath_first (env : Env σ) (w : SkylanderPortalWindow σ) (id var : Nat) :
    GetFilePath env w id var =
        (((entryInfoList env w.system (QDir env w.m_collection_path)).find?
          (holdsFigure env w.system id var)).map QFileInfo.filePath).getD "" ∧
      (GetFilePath env w id var = "" ↔
        ∀ file ∈ entryInfoList env w.system (QDir env w.m_collection_path),
          holdsFigure env w.system id var file = false) ∧
      (GetFilePath env w id var ≠ "" →
        ∃ file ∈ entryInfoList env w.system (QDir env w.m_collection_path),
          holdsFigure env w.system id var file = true ∧
            GetFilePath env w id var = file.filePath) := by
  have heq := GetFilePathLoop_eq_find env w.system id var
    (entryInfoList env w.system (QDir env w.m_collection_path))
  unfold GetFilePath
  rw [heq]
  refine ⟨rfl, ?_, ?_⟩
  · cases hfind : (entryInfoList env w.system (QDir env w.m_collection_path)).find?
        (holdsFigure env w.system id var) with
    | none =>
      have hnone := List.find?_eq_none.1 hfind
      constructor
      · intro _ file hfile
        simpa using hnone file hfile
      · intro _
        rfl
    | some file =>
      have hmem := List.mem_of_find?_eq_some hfind
      have hholds := List.find?_some hfind
      constructor
      · intro hempty
        exact absurd hempty (entryInfoList_filePath_ne_empty env w.system _ file hmem)
      · intro hall
        rw [hall file hmem] at hholds
        exact Bool.noConfusion hholds
  · cases hfind : (entryInfoList env w.system (QDir env w.m_collection_path)).find?
        (holdsFigure env w.system id var) with
    | none =>
      intro hne
      exact absurd rfl hne
    | some file =>
      intro _
      exact ⟨file, List.mem_of_find?_eq_some hfind, List.find?_some hfind, rfl⟩

set_option maxRecDepth 20000 in
/-- C6 at the sample folder: the first two `*.sky` files cannot be opened or are too
short and are skipped, the third holds the figure `(514, 514)`; no file holds `(1, 0)`. -/
theorem GetFilePath_first_witness :
    GetFilePath sampleEnv (sampleWindow 0) 514 514 = "/sky/beta.sky" ∧
      (∃ file ∈ entryInfoList sampleEnv (sampleWindow 0).system
          (QDir sampleEnv (sampleWindow 0).m_collection_path),
        holdsFigure sampleEnv (sampleWindow 0).system 514 514 file = true ∧
          GetFilePath sampleEnv (sampleWindow 0) 514 514 = file.filePath) ∧
      GetFilePath sampleEnv (sampleWindow 0) 1 0 = "" :=
  ⟨(GetFilePath_first sampleEnv (sampleWindow 0) 514 514).1.trans (by decide),
    (GetFilePath_first sampleEnv (sampleWindow 0) 514 514).2.2 (by decide),
    (GetFilePath_first sampleEnv (sampleWindow 0) 1 0).2.1.2 (by decide)⟩

/-! ## Rebuilding the list -/

/-- `UpdateCurrentIDs` leaves the list widget alone. -/
theorem UpdateCurrentIDs_list (w : SkylanderPortalWindow σ) :
    (UpdateCurrentIDs w).m_skylander_list = w.m_skylander_list := by
  obtain ⟨i, v, h⟩ := UpdateCurrentIDs_frame w
  rw [h]

/-- `setCurrentItem` leaves the items of the list alone. -/
theorem setCurrentItem_items (w : SkylanderPortalWindow σ) (row : Int) :
    (setCurrentItem w row).m_skylander_list.items = w.m_skylander_list.items := by
  unfold setCurrentItem
  cases w.m_skylander_list.item row with
  | none => rfl
  | some item => simp only [UpdateCurrentIDs_list]

/-- Putting the selection back leaves the items of the list alone. -/
theorem restoreCurrent_items (w : SkylanderPortalWindow σ) (row : Int) :
    (restoreCurrent w row).m_skylander_list.items = w.m_skylander_list.items := by
  unfold restoreCurrent
  split
  · exact setCurrentItem_items w row
  · split
    · exact setCurrentItem_items w _
    · rfl

/-- After `RefreshList` the list holds the rebuilt items. -/
theorem RefreshList_items (env : Env σ) (w : SkylanderPortalWindow σ) :
    (RefreshList env w).m_skylander_list.items = RefreshListItems env w := by
  unfold RefreshList
  exact restoreCurrent_items _ _

/-- For 16-bit `id` and `var` the packed value fits 32 bits. -/
theorem qvar_of_lt (id var : Nat) (hid : id < 65536) (hvar : var < 65536) :
    qvar id var = (id <<< 16) ||| var := by
  unfold qvar
  apply Nat.mod_eq_of_lt
  apply Nat.or_lt_two_pow
  · rw [Nat.shiftLeft_eq]
    omega
  · omega

/-- C7: with `Only Show Files in Collection` unchecked and the keys of `list_skylanders`
being 16-bit pairs, the list after `RefreshList` holds, in the iteration order of
`list_skylanders`, exactly one item for each entry for which
`PassesFilter(name, id, var)` is true and no other item; the text of the item is the
name of the entry and its data value is `(id << 16) | var`. -/
theorem RefreshList_database (env : Env σ) (w : SkylanderPortalWindow σ)
    (hunchecked : w.m_only_show_collection = false)
    (hkeys : ∀ entry ∈ env.list_skylanders, entry.1.1 < 65536 ∧ entry.1.2 < 65536) :
    (RefreshList env w).m_skylander_list.items =
      (env.list_skylanders.filter
        (fun entry => PassesFilter env w entry.2.name entry.1.1 entry.1.2)).map
        (fun entry =>
          QListWidgetItem.mk entry.2.name ((entry.1.1 <<< 16) ||| entry.1.2)
            (GetBaseColor env entry.1)) := by
  rw [RefreshList_items]
  unfold RefreshListItems
  rw [hunchecked]
  simp only [Bool.false_eq_true, if_false]
  generalize env.list_skylanders = entries at hkeys
  induction entries with
  | nil => rfl
  | cons entry entries ih =>
    have hk := hkeys entry (List.mem_cons_self _ _)
    have ih' := ih (fun e he => hkeys e (List.mem_cons_of_mem _ he))
    have hitem : databaseItem env w entry =
        if PassesFilter env w entry.2.name entry.1.1 entry.1.2 = true then
          some (QListWidgetItem.mk entry.2.name (qvar entry.1.1 entry.1.2)
            (GetBaseColor env entry.1))
        else none := rfl
    rw [List.filterMap_cons, List.filter_cons, hitem]
    by_cases hp : PassesFilter env w entry.2.name entry.1.1 entry.1.2 = true
    · rw [if_pos hp, if_pos hp, List.map_cons, ih', qvar_of_lt _ _ hk.1 hk.2]
    · rw [if_neg hp, if_neg hp, ih']

/-- C7 at the sample window with the search text `beta`. -/
theorem RefreshList_database_witness :
    (RefreshList sampleEnv { sampleWindow 0 with m_sky_search := "beta" }).m_skylander_list.items =
      (sampleEnv.list_skylanders.filter
        (fun entry => PassesFilter sampleEnv { sampleWindow 0 with m_sky_search := "beta" }
          entry.2.name entry.1.1 entry.1.2)).map
        (fun entry =>
          QListWidgetItem.mk entry.2.name ((entry.1.1 <<< 16) ||| entry.1.2)
            (GetBaseColor sampleEnv entry.1)) :=
  RefreshList_database sampleEnv { sampleWindow 0 with m_sky_search := "beta" } rfl
    (by decide)

/-! ## Choosing the collection folder -/

@[simp] theorem RefreshList_m_collection_path (env : Env σ) (w : SkylanderPortalWindow σ) :
    (RefreshList env w).m_collection_path = w.m_collection_path :=
  congrArg Backing.m_collection_path (RefreshList_backing env w)

@[simp] theorem RefreshList_m_path_edit (env : Env σ) (w : SkylanderPortalWindow σ) :
    (RefreshList env w).m_path_edit = w.m_path_edit :=
  congrArg Backing.m_path_edit (RefreshList_backing env w)

@[simp] theorem RefreshList_MAIN_SKYLANDERS_PATH (env : Env σ) (w : SkylanderPortalWindow σ) :
    (RefreshList env w).MAIN_SKYLANDERS_PATH = w.MAIN_SKYLANDERS_PATH :=
  congrArg Backing.MAIN_SKYLANDERS_PATH (RefreshList_backing env w)

/-- A cancelled directory chooser: the window keeps its collection path and the text of
the path edit, and the stored configuration value becomes the empty string. -/
theorem SelectCollectionPath_of_cancel (env : Env σ) (w : SkylanderPortalWindow σ) :
    (SelectCollectionPath env w "").m_collection_path = w.m_collection_path ∧
      (SelectCollectionPath env w "").m_path_edit = w.m_path_edit ∧
      (SelectCollectionPath env w "").MAIN_SKYLANDERS_PATH = "" := by
  have hd : toNativeSeparators env "" = "" := rfl
  unfold SelectCollectionPath
  simp only [hd, record, ne_eq, not_true_eq_false, if_false]
  split <;> simp

/-- A chosen directory: the collection path, the text of the path edit and the stored
configuration value all become the directory, in native separators, followed by the
separator. -/
theorem SelectCollectionPath_of_choice (env : Env σ) (w : SkylanderPortalWindow σ)
    (d : String) (hd : toNativeSeparators env d ≠ "") :
    (SelectCollectionPath env w d).m_collection_path =
        (toNativeSeparators env d).push env.separator ∧
      (SelectCollectionPath env w d).m_path_edit =
        (toNativeSeparators env d).push env.separator ∧
      (SelectCollectionPath env w d).MAIN_SKYLANDERS_PATH =
        (toNativeSeparators env d).push env.separator := by
  unfold SelectCollectionPath
  simp only [record, ne_eq, hd, not_false_eq_true, if_true]
  split <;> simp

/-- C8, the code at the failing input: the directory chooser is cancelled on a window
whose stored configuration value is `/sky/`. The collection path and the path edit keep
`/sky/`, and the stored configuration value is overwritten with the empty string. -/
theorem SelectCollectionPath_cancel_overwrites_config :
    (sampleWindow 0).MAIN_SKYLANDERS_PATH = "/sky/" ∧
      (SelectCollectionPath sampleEnv (sampleWindow 0) "").m_collection_path = "/sky/" ∧
      (SelectCollectionPath sampleEnv (sampleWindow 0) "").m_path_edit = "/sky/" ∧
      (SelectCollectionPath sampleEnv (sampleWindow 0) "").MAIN_SKYLANDERS_PATH = "" := by
  decide

/-! ## The `Create` button of the `Customize` dialog -/

/-- An ID text that does not convert: a warning is the only outside call, so no save
dialog is opened and `CreateSkylander` is not called; `sky_var` is kept and `sky_id` is
overwritten with `0`. -/
theorem CreateSkylanderAdvanced_accepted_of_bad_id (env : Env σ)
    (w : SkylanderPortalWindow σ) (edit_id edit_var file_path : String)
    (hid : (QString.toUShort edit_id).2 = false) :
    CreateSkylanderAdvanced_accepted env w edit_id edit_var file_path =
      { w with
        sky_id := (QString.toUShort edit_id).1
        log := w.log ++ [Event.warning (tr "Error converting value")
          (tr "ID entered is invalid!")] } := by
  unfold CreateSkylanderAdvanced_accepted
  simp only [hid, record, Bool.not_false, if_true]

/-- A failed conversion returns `0`. -/
theorem toUShort_of_failure (s : String) (h : (QString.toUShort s).2 = false) :
    (QString.toUShort s).1 = 0 := by
  unfold QString.toUShort at h ⊢
  simp only at h ⊢
  split
  · split
    · rename_i h1 h2
      rw [if_pos h1, if_pos h2] at h
      exact Bool.noConfusion h
    · rfl
  · rfl

/-- C9, the code at the failing input: the `Create` button is pressed with an empty ID
text on a window whose current ids are `5` and `7`. A warning is the only outside call,
and `sky_id` is overwritten with `0`. With ID text `9` and variant text `70000` the
warning is shown as well, `sky_id` becomes `9` and `sky_var` becomes `0`. -/
theorem CreateSkylanderAdvanced_bad_text_overwrites_ids :
    (sampleWindow 0).sky_id = 5 ∧ (sampleWindow 0).sky_var = 7 ∧
      (CreateSkylanderAdvanced_accepted sampleEnv (sampleWindow 0) "" "3" "/sky/new.sky").log =
        [Event.warning "Error converting value" "ID entered is invalid!"] ∧
      (CreateSkylanderAdvanced_accepted sampleEnv (sampleWindow 0) "" "3" "/sky/new.sky").sky_id
        = 0 ∧
      (CreateSkylanderAdvanced_accepted sampleEnv (sampleWindow 0) "9" "70000"
        "/sky/new.sky").log =
        [Event.warning "Error converting value" "Variant entered is invalid!"] ∧
      (CreateSkylanderAdvanced_accepted sampleEnv (sampleWindow 0) "9" "70000"
        "/sky/new.sky").sky_id = 9 ∧
      (CreateSkylanderAdvanced_accepted sampleEnv (sampleWindow 0) "9" "70000"
        "/sky/new.sky").sky_var = 0 := by
  decide

/-! ## The texts of the slots -/

/-- `UpdateSlotNames` is its loop body run over the slot indices. -/
theorem UpdateSlotNames_eq_foldl (env : Env σ) (w : SkylanderPortalWindow σ) :
    UpdateSlotNames env w = (List.range env.MAX_SKYLANDERS).foldl (setSlotName env) w := rfl

/-- The loop of `UpdateSlotNames` keeps the slot records and the number of texts. -/
theorem foldl_setSlotName_keeps (env : Env σ) (is : List Nat) (w : SkylanderPortalWindow σ) :
    (is.foldl (setSlotName env) w).m_sky_slots = w.m_sky_slots ∧
      (is.foldl (setSlotName env) w).m_edit_skylanders.length =
        w.m_edit_skylanders.length := by
  induction is generalizing w with
  | nil => exact ⟨rfl, rfl⟩
  | cons i is ih =>
    rw [List.foldl_cons]
    obtain ⟨h1, h2⟩ := ih (setSlotName env w i)
    rw [h1, h2]
    exact ⟨rfl, List.length_set _ _ _⟩

/-- After the loop of `UpdateSlotNames` over the first `n` indices, every text below `n`
is the display string of its slot. -/
theorem foldl_setSlotName_text (env : Env σ) (n : Nat) (w : SkylanderPortalWindow σ)
    (i : Nat) (hi : i < n) (hlen : i < w.m_edit_skylanders.length) :
    ((List.range n).foldl (setSlotName env) w).m_edit_skylanders[i]? =
      some (display_string env (w.m_sky_slots.getD i none)) := by
  induction n with
  | zero => omega
  | succ n ih =>
    rw [List.range_succ, List.foldl_append, List.foldl_cons, List.foldl_nil]
    obtain ⟨hslots, hlength⟩ := foldl_setSlotName_keeps env (List.range n) w
    have hstep : ∀ v : SkylanderPortalWindow σ, (setSlotName env v n).m_edit_skylanders =
        v.m_edit_skylanders.set n (display_string env (v.m_sky_slots.getD n none)) :=
      fun _ => rfl
    rw [hstep]
    by_cases hin : i = n
    · subst hin
      rw [List.getElem?_set_self (by rw [hlength]; exact hlen), hslots]
    · rw [List.getElem?_set_ne (Ne.symm hin)]
      exact ih (by omega)

/-- A decimal digit is not the character `%`. -/
theorem digitChar_ne_percent : ∀ d, d < 10 → Nat.digitChar d ≠ '%' := by decide

/-- The digits produced by `Nat.toDigitsCore` in base ten are not `%`. -/
theorem toDigitsCore_ne_percent (fuel n : Nat) (acc : List Char)
    (hacc : ∀ c ∈ acc, c ≠ '%') : ∀ c ∈ Nat.toDigitsCore 10 fuel n acc, c ≠ '%' := by
  induction fuel generalizing n acc with
  | zero => exact hacc
  | succ fuel ih =>
    have hcons : ∀ c ∈ Nat.digitChar (n % 10) :: acc, c ≠ '%' := by
      intro c hc
      rcases List.mem_cons.1 hc with h | h
      · rw [h]
        exact digitChar_ne_percent _ (Nat.mod_lt _ (by decide))
      · exact hacc c h
    unfold Nat.toDigitsCore
    simp only
    split
    · exact hcons
    · exact ih _ _ hcons

/-- The decimal text of a number holds no `%`. -/
theorem toString_ne_percent (n : Nat) : ∀ c ∈ (toString n).toList, c ≠ '%' :=
  toDigitsCore_ne_percent (n + 1) n [] (fun _ h => absurd h (List.not_mem_nil _))

/-- A character other than `%` does not start a place marker. -/
theorem markerAt_of_ne_percent (c : Char) (cs : List Char) (h : c ≠ '%') :
    markerAt (c :: cs) = none := by
  unfold markerAt
  split
  · rename_i heq
    exact absurd (List.cons.inj heq).1 h
  · rfl

/-- Text without `%` holds no place marker. -/
theorem markers_append (l rest : List Char) (h : ∀ c ∈ l, c ≠ '%') :
    markers 0 (l ++ rest) = markers 0 rest := by
  induction l with
  | nil => rfl
  | cons c l ih =>
    have hc := h c (List.mem_cons_self _ _)
    rw [List.cons_append, markers, markerAt_of_ne_percent c _ hc]
    exact ih (fun d hd => h d (List.mem_cons_of_mem _ hd))

/-- Text without `%` is copied by the replacement of a place marker. -/
theorem replaceMarker_append (n : Nat) (a l rest : List Char) (h : ∀ c ∈ l, c ≠ '%') :
    replaceMarker n a 0 (l ++ rest) = l ++ replaceMarker n a 0 rest := by
  induction l with
  | nil => rfl
  | cons c l ih =>
    have hc := h c (List.mem_cons_self _ _)
    rw [List.cons_append, replaceMarker, markerAt_of_ne_percent c _ hc]
    simp only [List.cons_append]
    rw [ih (fun d hd => h d (List.mem_cons_of_mem _ hd))]

/-- The first `arg` on the `Unknown` template of `UpdateSlotNames` fills in `%1`. -/
theorem arg_unknown_first (a : String) :
    QString.arg (tr "Unknown (Id:%1 Var:%2)") a =
      String.mk ("Unknown (Id:".toList ++ (a.toList ++ " Var:%2)".toList)) := rfl

/-- The second `arg` fills in `%2`, when the first text holds no `%`. -/
theorem arg_unknown_second (a b : String) (ha : ∀ c ∈ a.toList, c ≠ '%') :
    QString.arg (String.mk ("Unknown (Id:".toList ++ (a.toList ++ " Var:%2)".toList))) b =
      "Unknown (Id:" ++ a ++ " Var:" ++ b ++ ")" := by
  have hp : ∀ c ∈ "Unknown (Id:".toList, c ≠ '%' := by decide
  have hm : markers 0 ("Unknown (Id:".toList ++ (a.toList ++ " Var:%2)".toList)) = [2] := by
    rw [markers_append _ _ hp, markers_append _ _ ha]
    rfl
  have hr : replaceMarker 2 b.toList 0
      ("Unknown (Id:".toList ++ (a.toList ++ " Var:%2)".toList)) =
      "Unknown (Id:".toList ++ (a.toList ++ (" Var:".toList ++ (b.toList ++ ")".toList))) := by
    rw [replaceMarker_append _ _ _ _ hp, replaceMarker_append _ _ _ _ ha]
    rfl
  have h2 : ([2] : List Nat).min? = some 2 := rfl
  unfold QString.arg
  simp only [String.toList] at hm hr ⊢
  simp only [hm, h2, hr]
  apply String.ext
  simp [String.data_append]

/-- C11: after `UpdateSlotNames`, for every slot index `i` below `MAX_SKYLANDERS` the text
of `m_edit_skylanders[i]` is `None` if `m_sky_slots[i]` is empty, the name stored in
`list_skylanders` if the slot is occupied and its pair is a key of the table, and
`Unknown (Id:<sky_id> Var:<sky_var>)` with both numbers in decimal otherwise; and
`m_sky_slots` is not modified. -/
theorem UpdateSlotNames_texts (env : Env σ) (w : SkylanderPortalWindow σ) (i : Nat)
    (hi : i < env.MAX_SKYLANDERS)
    (hedit : w.m_edit_skylanders.length = env.MAX_SKYLANDERS) :
    (w.m_sky_slots.getD i none = none →
        (UpdateSlotNames env w).m_edit_skylanders[i]? = some "None") ∧
      (∀ sd found_sky, w.m_sky_slots.getD i none = some sd →
        env.list_skylanders.lookup (sd.sky_id, sd.sky_var) = some found_sky →
        (UpdateSlotNames env w).m_edit_skylanders[i]? = some found_sky.name) ∧
      (∀ sd, w.m_sky_slots.getD i none = some sd →
        env.list_skylanders.lookup (sd.sky_id, sd.sky_var) = none →
        (UpdateSlotNames env w).m_edit_skylanders[i]? =
          some ("Unknown (Id:" ++ toString sd.sky_id ++ " Var:" ++ toString sd.sky_var ++ ")")) ∧
      (UpdateSlotNames env w).m_sky_slots = w.m_sky_slots := by
  have htext := foldl_setSlotName_text env env.MAX_SKYLANDERS w i hi (by omega)
  rw [← UpdateSlotNames_eq_foldl] at htext
  rw [htext]
  refine ⟨?_, ?_, ?_, UpdateSlotNames_m_sky_slots env w⟩
  · intro h
    rw [h]
    rfl
  · intro sd found_sky h hfound
    rw [h]
    unfold display_string find
    simp only [hfound]
  · intro sd h hfound
    rw [h]
    unfold display_string find
    simp only [hfound]
    rw [arg_unknown_first, arg_unknown_second _ _ (toString_ne_percent sd.sky_id)]

/-- C11 at the sample table: an empty slot, a slot holding the known pair `(1, 0)` and a
slot holding the unknown pair `(9, 4)`. -/
theorem UpdateSlotNames_texts_witness :
    (UpdateSlotNames sampleEnv (sampleWindow 0)).m_edit_skylanders[0]? = some "None" ∧
      (UpdateSlotNames sampleEnv (sampleWindow 0)).m_edit_skylanders[1]? = some "Alpha" ∧
      (UpdateSlotNames sampleEnv
          { sampleWindow 0 with m_sky_slots := [none, none, some (Skylander.mk 0 9 4), none] }
        ).m_edit_skylanders[2]? = some "Unknown (Id:9 Var:4)" ∧
      (UpdateSlotNames sampleEnv (sampleWindow 0)).m_sky_slots = (sampleWindow 0).m_sky_slots :=
  ⟨(UpdateSlotNames_texts sampleEnv (sampleWindow 0) 0 (by decide) (by decide)).1
      (by decide),
    (UpdateSlotNames_texts sampleEnv (sampleWindow 0) 1 (by decide) (by decide)).2.1
      (Skylander.mk 0 1 0) (SkyData.mk "Alpha" Game.SPYROS_ADV Element.MAGIC)
      (by decide) (by decide),
    (UpdateSlotNames_texts sampleEnv
      { sampleWindow 0 with m_sky_slots := [none, none, some (Skylander.mk 0 9 4), none] }
      2 (by decide) (by decide)).2.2.1 (Skylander.mk 0 9 4) (by decide) (by decide),
    (UpdateSlotNames_texts sampleEnv (sampleWindow 0) 0 (by decide) (by decide)).2.2.2⟩

/-! ## The selected slot -/

/-- Radios that carry the ids given by `CreatePortalGroup` are as many as the slots. -/
theorem slot_radios_length (env : Env σ) (w : SkylanderPortalWindow σ)
    (hbuilt : w.m_slot_radios.map QRadioButton.id =
      (CreatePortalGroup_slot_radios env).map QRadioButton.id) :
    w.m_slot_radios.length = env.MAX_SKYLANDERS := by
  have h := congrArg List.length hbuilt
  unfold CreatePortalGroup_slot_radios at h
  simpa using h

/-- Radios that carry the ids given by `CreatePortalGroup`: radio `i` carries id `i`. -/
theorem slot_radio_id (env : Env σ) (w : SkylanderPortalWindow σ)
    (hbuilt : w.m_slot_radios.map QRadioButton.id =
      (CreatePortalGroup_slot_radios env).map QRadioButton.id)
    (i : Nat) (r : QRadioButton) (hr : w.m_slot_radios[i]? = some r) :
    r.id = i ∧ i < env.MAX_SKYLANDERS := by
  have hlen := slot_radios_length env w hbuilt
  have hi : i < env.MAX_SKYLANDERS := by
    obtain ⟨h, _⟩ := List.getElem?_eq_some.1 hr
    omega
  have h := congrArg (fun l : List Int => l[i]?) hbuilt
  unfold CreatePortalGroup_slot_radios at h
  simp only [List.getElem?_map, hr, List.getElem?_range hi, Option.map_some'] at h
  exact ⟨Option.some.inj h, hi⟩

/-- C12: with the slot radios carrying the ids given by `CreatePortalGroup` (radio `i`
carries id `i`, one radio per slot, at most the 16 of the header) and at least one slot,
`GetCurrentSlot` returns `0` when no radio is checked and the index of the first checked
radio otherwise; whatever the checked states are, its result is below `MAX_SKYLANDERS`,
so it is a valid index of `m_sky_slots`. -/
theorem GetCurrentSlot_in_bounds (env : Env σ) (w : SkylanderPortalWindow σ)
    (hpos : 0 < env.MAX_SKYLANDERS) (hmax : env.MAX_SKYLANDERS ≤ 16)
    (hbuilt : w.m_slot_radios.map QRadioButton.id =
      (CreatePortalGroup_slot_radios env).map QRadioButton.id) :
    ((∀ r ∈ w.m_slot_radios, r.isChecked = false) → GetCurrentSlot w = 0) ∧
      (∀ i r, w.m_slot_radios[i]? = some r → r.isChecked = true →
        (∀ j q, j < i → w.m_slot_radios[j]? = some q → q.isChecked = false) →
        GetCurrentSlot w = i) ∧
      GetCurrentSlot w < env.MAX_SKYLANDERS ∧
      (w.m_sky_slots.length = env.MAX_SKYLANDERS →
        GetCurrentSlot w < w.m_sky_slots.length) := by
  have hval : ∀ (i : Nat) (r : QRadioButton),
      w.m_slot_radios[i]? = some r → (r.id % 256).toNat = i := by
    intro i r hr
    obtain ⟨hid, hi⟩ := slot_radio_id env w hbuilt i r hr
    rw [hid]
    omega
  have hbound : GetCurrentSlot w < env.MAX_SKYLANDERS := by
    unfold GetCurrentSlot
    cases hfind : w.m_slot_radios.find? (fun radio => radio.isChecked) with
    | none => exact hpos
    | some r =>
      obtain ⟨i, hi⟩ := List.mem_iff_getElem?.1 (List.mem_of_find?_eq_some hfind)
      show (r.id % 256).toNat < env.MAX_SKYLANDERS
      rw [hval i r hi]
      exact (slot_radio_id env w hbuilt i r hi).2
  refine ⟨?_, ?_, hbound, fun h => h ▸ hbound⟩
  · intro hnone
    unfold GetCurrentSlot
    have hfind : w.m_slot_radios.find? (fun radio => radio.isChecked) = none := by
      rw [List.find?_eq_none]
      intro r hr
      simp [hnone r hr]
    rw [hfind]
  · intro i r hr hchecked hfirst
    unfold GetCurrentSlot
    cases hfind : w.m_slot_radios.find? (fun radio => radio.isChecked) with
    | none =>
      have hno := List.find?_eq_none.1 hfind r (List.getElem?_mem hr)
      exact absurd hchecked hno
    | some q =>
      obtain ⟨hq, as, bs, hsplit, has⟩ := List.find?_eq_some.1 hfind
      have hqat : w.m_slot_radios[as.length]? = some q := by
        rw [hsplit, List.getElem?_append_right (le_refl _)]
        simp
      have hlen : as.length = i := by
        rcases Nat.lt_trichotomy as.length i with hlt | heq | hgt
        · have := hfirst as.length q hlt hqat
          rw [this] at hq
          exact Bool.noConfusion hq
        · exact heq
        · have hri : as[i]? = some r := by
            rw [← List.getElem?_append_left hgt, ← hsplit]
            exact hr
          have := has r (List.getElem?_mem hri)
          rw [hchecked] at this
          exact Bool.noConfusion this
      show (q.id % 256).toNat = i
      rw [hval as.length q hqat, hlen]

/-- C12 at the sample window, whose second radio is the checked one, and at the same
window with no radio checked. -/
theorem GetCurrentSlot_in_bounds_witness :
    GetCurrentSlot { sampleWindow 0 with
        m_slot_radios := (sampleWindow 0).m_slot_radios.map
          (fun r => QRadioButton.mk false r.id) } = 0 ∧
      GetCurrentSlot (sampleWindow 0) = 1 ∧
      GetCurrentSlot (sampleWindow 0) < sampleEnv.MAX_SKYLANDERS ∧
      GetCurrentSlot (sampleWindow 0) < (sampleWindow 0).m_sky_slots.length :=
  ⟨(GetCurrentSlot_in_bounds sampleEnv { sampleWindow 0 with
        m_slot_radios := (sampleWindow 0).m_slot_radios.map
          (fun r => QRadioButton.mk false r.id) }
      (by decide) (by decide) (by decide)).1 (by decide),
    (GetCurrentSlot_in_bounds sampleEnv (sampleWindow 0) (by decide) (by decide)
      (by decide)).2.1 1 (QRadioButton.mk true 1) (by decide) (by decide)
      (fun j q hj hq => by
        have hj0 : j = 0 := by omega
        subst hj0
        rw [← Option.some.inj hq]
        rfl),
    (GetCurrentSlot_in_bounds sampleEnv (sampleWindow 0) (by decide) (by decide)
      (by decide)).2.2.1,
    (GetCurrentSlot_in_bounds sampleEnv (sampleWindow 0) (by decide) (by decide)
      (by decide)).2.2.2 (by decide)⟩

/-! ## The selection after a refresh -/

/-- The list after `RefreshList`, in the three ways its end can go: the previous row is a
row of the rebuilt list, it lies beyond the rebuilt list, or there was none. -/
theorem restoreCurrent_row (w : SkylanderPortalWindow σ) (items : List QListWidgetItem)
    (row : Int) :
    (0 ≤ row → row < items.length →
        (restoreCurrent { w with m_skylander_list := QListWidget.mk items (-1) }
          row).m_skylander_list = QListWidget.mk items row) ∧
      ((items.length : Int) < row → 0 < items.length →
        (restoreCurrent { w with m_skylander_list := QListWidget.mk items (-1) }
          row).m_skylander_list = QListWidget.mk items (items.length - 1)) ∧
      (row < 0 →
        (restoreCurrent { w with m_skylander_list := QListWidget.mk items (-1) }
          row).m_skylander_list = QListWidget.mk items (-1)) := by
  refine ⟨?_, ?_, ?_⟩
  · intro h0 hlt
    have hitem : (QListWidget.mk items (-1)).item row = items[row.toNat]? := by
      unfold QListWidget.item
      rw [if_pos h0, List.get?_eq_getElem?]
    have hsome : ∃ it, items[row.toNat]? = some it := by
      have : row.toNat < items.length := by omega
      exact ⟨items[row.toNat], List.getElem?_eq_getElem this⟩
    obtain ⟨it, hit⟩ := hsome
    unfold restoreCurrent
    rw [if_pos (show (QListWidget.mk items (-1)).count ≥ row by
      show (items.length : Int) ≥ row; omega)]
    unfold setCurrentItem
    simp only [hitem, hit, UpdateCurrentIDs_list]
  · intro hgt hpos
    have hitem : (QListWidget.mk items (-1)).item ((items.length : Int) - 1) =
        items[items.length - 1]? := by
      unfold QListWidget.item
      rw [if_pos (by omega), List.get?_eq_getElem?]
      congr 1
      omega
    have hsome : ∃ it, items[items.length - 1]? = some it :=
      ⟨items[items.length - 1], List.getElem?_eq_getElem (by omega)⟩
    obtain ⟨it, hit⟩ := hsome
    unfold restoreCurrent
    simp only [QListWidget.count]
    rw [if_neg (by omega), if_pos (by omega)]
    unfold setCurrentItem
    simp only [hitem, hit, UpdateCurrentIDs_list]
  · intro hneg
    have hitem : (QListWidget.mk items (-1)).item row = none := by
      unfold QListWidget.item
      rw [if_neg (by omega)]
    unfold restoreCurrent
    rw [if_pos (show (QListWidget.mk items (-1)).count ≥ row by
      show (items.length : Int) ≥ row; omega)]
    unfold setCurrentItem
    simp only [hitem]

/-- C13, as amended: `RefreshList` restores the selection when there was one. If the
previous current row is a valid index of the rebuilt list (`0 <= row < count`), the item
at that row is the current item afterwards; if the previous current row is greater than
`count` and the rebuilt list is not empty, the last item is; if there was no current row
(`row < 0`), the list has no current item afterwards. -/
theorem RefreshList_restores_selection (env : Env σ) (w : SkylanderPortalWindow σ) :
    (0 ≤ w.m_skylander_list.currentRow →
        w.m_skylander_list.currentRow < (RefreshListItems env w).length →
        (RefreshList env w).m_skylander_list.currentRow = w.m_skylander_list.currentRow ∧
          (RefreshList env w).m_skylander_list.currentItem =
            (RefreshListItems env w)[w.m_skylander_list.currentRow.toNat]?) ∧
      (((RefreshListItems env w).length : Int) < w.m_skylander_list.currentRow →
        0 < (RefreshListItems env w).length →
        (RefreshList env w).m_skylander_list.currentRow =
            ((RefreshListItems env w).length : Int) - 1 ∧
          (RefreshList env w).m_skylander_list.currentItem =
            (RefreshListItems env w)[(RefreshListItems env w).length - 1]?) ∧
      (w.m_skylander_list.currentRow < 0 →
        (RefreshList env w).m_skylander_list.currentRow = -1 ∧
          (RefreshList env w).m_skylander_list.currentItem = none) := by
  obtain ⟨h1, h2, h3⟩ :=
    restoreCurrent_row w (RefreshListItems env w) w.m_skylander_list.currentRow
  unfold RefreshList
  refine ⟨?_, ?_, ?_⟩
  · intro h0 hlt
    simp only [h1 h0 hlt]
    refine ⟨trivial, ?_⟩
    unfold QListWidget.currentItem QListWidget.item
    simp only [if_pos h0, List.get?_eq_getElem?]
  · intro hgt hpos
    simp only [h2 hgt hpos]
    refine ⟨trivial, ?_⟩
    unfold QListWidget.currentItem QListWidget.item
    simp only
    rw [if_pos (by omega), List.get?_eq_getElem?]
    congr 1
    omega
  · intro hneg
    simp only [h3 hneg]
    exact ⟨trivial, rfl⟩

/-- The boundary left out of C13: when the previous current row equals the number of
rebuilt items, the test `count() >= row` sends `RefreshList` to `item(row)`, which is
null, and the list has no current item afterwards. -/
theorem RefreshList_row_eq_count (env : Env σ) (w : SkylanderPortalWindow σ)
    (hrow : w.m_skylander_list.currentRow = (RefreshListItems env w).length) :
    (RefreshList env w).m_skylander_list.currentItem = none := by
  have hitem : (QListWidget.mk (RefreshListItems env w) (-1)).item
      w.m_skylander_list.currentRow = none := by
    unfold QListWidget.item
    rw [hrow, if_pos (by omega), List.get?_eq_getElem?]
    exact List.getElem?_eq_none (by simp)
  unfold RefreshList restoreCurrent
  simp only [QListWidget.count]
  rw [if_pos (by omega)]
  unfold setCurrentItem
  simp only [hitem]
  unfold QListWidget.currentItem QListWidget.item
  simp

/-- C13 as stated fails: the sample window has no current row, `RefreshList` rebuilds a
list that is not empty, and the list has no current item afterwards. -/
theorem RefreshList_without_row_selects_nothing :
    (sampleWindow 0).m_skylander_list.currentRow = -1 ∧
      (RefreshList sampleEnv (sampleWindow 0)).m_skylander_list.items ≠ [] ∧
      (RefreshList sampleEnv (sampleWindow 0)).m_skylander_list.currentItem = none := by
  decide

/-- C13 as amended, at the sample table of four figures: a previous row `1`, a previous
row `7` beyond the list, and no previous row. -/
theorem RefreshList_restores_selection_witness :
    (RefreshList sampleEnv
        { sampleWindow 0 with m_skylander_list := QListWidget.mk [] 1 }
      ).m_skylander_list.currentRow = 1 ∧
      (RefreshList sampleEnv
        { sampleWindow 0 with m_skylander_list := QListWidget.mk [] 7 }
      ).m_skylander_list.currentRow = 3 ∧
      (RefreshList sampleEnv (sampleWindow 0)).m_skylander_list.currentRow = -1 :=
  ⟨((RefreshList_restores_selection sampleEnv
      { sampleWindow 0 with m_skylander_list := QListWidget.mk [] 1 }).1
      (by decide) (by decide)).1,
    ((RefreshList_restores_selection sampleEnv
      { sampleWindow 0 with m_skylander_list := QListWidget.mk [] 7 }).2.1
      (by decide) (by decide)).1,
    ((RefreshList_restores_selection sampleEnv (sampleWindow 0)).2.2 (by decide)).1⟩

/-! ## The packed ids of an item -/

/-- For a 16-bit `var`, packing is multiplication and addition. -/
theorem pack_eq (id var : Nat) (hvar : var < 65536) :
    (id <<< 16) ||| var = 65536 * id + var := by
  rw [Nat.shiftLeft_eq, Nat.mul_comm id (2 ^ 16)]
  exact (Nat.mul_add_lt_is_or (by omega) id).symm

/-- C14: for 16-bit `id` and `var`, if the current item carries the data
`(id << 16) | var` as a 32-bit unsigned value, then `UpdateCurrentIDs` sets `sky_id` to
`id` and `sky_var` to `var` unless the pair is `(0xFFFF, 0xFFFF)`; for that pair, whose
packed value is `0xFFFFFFFF`, it leaves `sky_id` and `sky_var` unchanged. -/
theorem UpdateCurrentIDs_unpacks (w : SkylanderPortalWindow σ) (item : QListWidgetItem)
    (id var : Nat) (hid : id < 65536) (hvar : var < 65536)
    (hcurrent : w.m_skylander_list.currentItem = some item)
    (hdata : item.data = ((id <<< 16) ||| var) % 2 ^ 32) :
    ((id, var) ≠ (0xFFFF, 0xFFFF) →
        (UpdateCurrentIDs w).sky_id = id ∧ (UpdateCurrentIDs w).sky_var = var) ∧
      ((id, var) = (0xFFFF, 0xFFFF) →
        item.data = 0xFFFFFFFF ∧
          (UpdateCurrentIDs w).sky_id = w.sky_id ∧ (UpdateCurrentIDs w).sky_var = w.sky_var) := by
  have hpack : item.data = 65536 * id + var := by
    rw [hdata, pack_eq id var hvar]
    exact Nat.mod_eq_of_lt (by omega)
  have hmod : item.data % 2 ^ 32 = 65536 * id + var := by
    rw [hpack]
    exact Nat.mod_eq_of_lt (by omega)
  unfold UpdateCurrentIDs
  simp only [hcurrent, hmod]
  constructor
  · intro hne
    have hne' : 65536 * id + var ≠ 0xFFFFFFFF := by
      intro h
      apply hne
      have h1 : id = 0xFFFF := by omega
      have h2 : var = 0xFFFF := by omega
      rw [h1, h2]
    rw [if_pos hne']
    have hand : (65536 * id + var) &&& 0xFFFF = (65536 * id + var) % 2 ^ 16 :=
      Nat.and_pow_two_sub_one_eq_mod _ 16
    simp only [Nat.shiftRight_eq_div_pow, hand]
    constructor <;> omega
  · intro heq
    have h1 : id = 0xFFFF := congrArg Prod.fst heq
    have h2 : var = 0xFFFF := congrArg Prod.snd heq
    subst h1 h2
    rw [if_neg (by decide)]
    exact ⟨hpack, rfl, rfl⟩

/-- C14 at an item packed from `(2, 1)` and at an item carrying `0xFFFFFFFF`, on the
sample window whose current ids are `5` and `7`. -/
theorem UpdateCurrentIDs_unpacks_witness :
    ((UpdateCurrentIDs { sampleWindow 0 with
        m_skylander_list := QListWidget.mk [QListWidgetItem.mk "Beta Two" 131073 none] 0 }
      ).sky_id = 2 ∧
      (UpdateCurrentIDs { sampleWindow 0 with
        m_skylander_list := QListWidget.mk [QListWidgetItem.mk "Beta Two" 131073 none] 0 }
      ).sky_var = 1) ∧
      ((QListWidgetItem.mk "" 0xFFFFFFFF none).data = 0xFFFFFFFF ∧
        (UpdateCurrentIDs { sampleWindow 0 with
          m_skylander_list := QListWidget.mk [QListWidgetItem.mk "" 0xFFFFFFFF none] 0 }
        ).sky_id = 5 ∧
        (UpdateCurrentIDs { sampleWindow 0 with
          m_skylander_list := QListWidget.mk [QListWidgetItem.mk "" 0xFFFFFFFF none] 0 }
        ).sky_var = 7) :=
  ⟨(UpdateCurrentIDs_unpacks
      { sampleWindow 0 with
        m_skylander_list := QListWidget.mk [QListWidgetItem.mk "Beta Two" 131073 none] 0 }
      (QListWidgetItem.mk "Beta Two" 131073 none) 2 1 (by decide) (by decide) rfl
      (by decide)).1 (by decide),
    (UpdateCurrentIDs_unpacks
      { sampleWindow 0 with
        m_skylander_list := QListWidget.mk [QListWidgetItem.mk "" 0xFFFFFFFF none] 0 }
      (QListWidgetItem.mk "" 0xFFFFFFFF none) 0xFFFF 0xFFFF (by decide) (by decide) rfl
      (by decide)).2 rfl⟩

/-! ## The colour lookup -/

/-- A pair that passes the filter is a key of `list_skylanders`. -/
theorem PassesFilter_key (env : Env σ) (w : SkylanderPortalWindow σ) (name : String)
    (id var : Nat) (h : PassesFilter env w name id var = true) :
    ∃ character, env.list_skylanders.lookup (id, var) = some character := by
  unfold PassesFilter find at h
  cases hfind : env.list_skylanders.lookup (id, var) with
  | none =>
    rw [hfind] at h
    exact Bool.noConfusion h
  | some character => exact ⟨character, rfl⟩

/-- The lookup of `GetBaseColor` fails exactly for the pairs that are not keys. -/
theorem GetBaseColor_eq_none (env : Env σ) (ids : Nat × Nat) :
    GetBaseColor env ids = none ↔ env.list_skylanders.lookup ids = none := by
  unfold GetBaseColor
  cases hfind : env.list_skylanders.lookup ids with
  | none => exact ⟨fun _ => rfl, fun _ => rfl⟩
  | some d =>
    constructor
    · intro h
      cases hg : d.game <;> simp [hg] at h
    · intro h
      exact Option.noConfusion h

/-- C15: the lookup `list_skylanders.at(ids)` of `GetBaseColor` never fails in
`RefreshList`. In the collection branch and in the database branch an item is added, and
`GetBaseColor` called, only for ids for which `PassesFilter` returned true;
`PassesFilter` returns false for every pair that is not a key of `list_skylanders`; so
every item of the rebuilt list has a background. -/
theorem RefreshList_GetBaseColor_found (env : Env σ) (w : SkylanderPortalWindow σ) :
    (∀ file item, collectionItem env w file = some item →
        ∃ ids : Nat × Nat, PassesFilter env w file.baseName ids.1 ids.2 = true ∧
          item.background = GetBaseColor env ids) ∧
      (∀ entry item, databaseItem env w entry = some item →
        PassesFilter env w entry.2.name entry.1.1 entry.1.2 = true ∧
          item.background = GetBaseColor env entry.1) ∧
      (∀ name id var, env.list_skylanders.lookup (id, var) = none →
        PassesFilter env w name id var = false) ∧
      (∀ item ∈ (RefreshList env w).m_skylander_list.items, item.background ≠ none) := by
  have hcoll : ∀ file item, collectionItem env w file = some item →
      ∃ ids : Nat × Nat, PassesFilter env w file.baseName ids.1 ids.2 = true ∧
        item.background = GetBaseColor env ids := by
    intro file item h
    unfold collectionItem at h
    cases hopen : env.openFile w.system file.filePath with
    | none =>
      rw [hopen] at h
      exact Option.noConfusion h
    | some sky_file =>
      cases hread : ReadBytes sky_file (0x40 * 0x10) with
      | none =>
        simp only [hopen, hread] at h
        exact Option.noConfusion h
      | some file_data =>
        simp only [hopen, hread] at h
        by_cases hp : PassesFilter env w file.baseName (CalculateIDs env file_data).1
            (CalculateIDs env file_data).2 = true
        · rw [if_pos hp] at h
          refine ⟨CalculateIDs env file_data, hp, ?_⟩
          rw [← Option.some.inj h]
        · rw [if_neg hp] at h
          exact Option.noConfusion h
  have hdb : ∀ entry item, databaseItem env w entry = some item →
      PassesFilter env w entry.2.name entry.1.1 entry.1.2 = true ∧
        item.background = GetBaseColor env entry.1 := by
    intro entry item h
    unfold databaseItem tr at h
    by_cases hp : PassesFilter env w entry.2.name entry.1.1 entry.1.2 = true
    · simp only [hp, if_true] at h
      refine ⟨hp, ?_⟩
      rw [← Option.some.inj h]
    · simp only [hp, if_false] at h
      exact Option.noConfusion h
  have hkey : ∀ name id var, env.list_skylanders.lookup (id, var) = none →
      PassesFilter env w name id var = false := by
    intro name id var hnone
    cases hp : PassesFilter env w name id var with
    | false => rfl
    | true =>
      obtain ⟨character, hc⟩ := PassesFilter_key env w name id var hp
      rw [hnone] at hc
      exact Option.noConfusion hc
  refine ⟨hcoll, hdb, hkey, ?_⟩
  intro item hitem
  rw [RefreshList_items] at hitem
  unfold RefreshListItems at hitem
  have hfound : ∀ (name : String) (ids : Nat × Nat),
      PassesFilter env w name ids.1 ids.2 = true → GetBaseColor env ids ≠ none := by
    intro name ids hp hnone
    obtain ⟨character, hc⟩ := PassesFilter_key env w name ids.1 ids.2 hp
    rw [(GetBaseColor_eq_none env ids).1 hnone] at hc
    exact Option.noConfusion hc
  split at hitem
  · obtain ⟨file, _, hfile⟩ := List.mem_filterMap.1 hitem
    obtain ⟨ids, hp, hbg⟩ := hcoll file item hfile
    rw [hbg]
    exact hfound _ ids hp
  · obtain ⟨entry, _, hentry⟩ := List.mem_filterMap.1 hitem
    obtain ⟨hp, hbg⟩ := hdb entry item hentry
    rw [hbg]
    exact hfound _ entry.1 hp

/-- C15 at the sample table: the pair `(9, 4)` is not a key and does not pass the filter,
and every item of the rebuilt list has a background. -/
theorem RefreshList_GetBaseColor_found_witness :
    PassesFilter sampleEnv (sampleWindow 0) "Unknown" 9 4 = false ∧
      ∀ item ∈ (RefreshList sampleEnv (sampleWindow 0)).m_skylander_list.items,
        item.background ≠ none :=
  ⟨(RefreshList_GetBaseColor_found sampleEnv (sampleWindow 0)).2.2.1 "Unknown" 9 4
      (by decide),
    (RefreshList_GetBaseColor_found sampleEnv (sampleWindow 0)).2.2.2⟩

/-! ## The default file name -/

/-- For a pair of `list_skylanders` the default file name is the base directory followed
by the name of the figure and `.sky`. -/
theorem predef_name_of_known (env : Env σ) (base : String) (sky_id sky_var : Nat)
    (found_sky : SkyData)
    (h : env.list_skylanders.lookup (sky_id, sky_var) = some found_sky) :
    predef_name env base sky_id sky_var = base ++ (found_sky.name ++ ".sky") := by
  unfold predef_name find
  rw [h]

/-- The call `str.arg(a, fieldWidth)` on the `Unknown` template fills in `%1` only. -/
theorem arg_unknown_file (a : String) :
    QString.arg (tr "Unknown(%1 %2).sky") a =
      String.mk ("Unknown(".toList ++ (a.toList ++ " %2).sky".toList)) := rfl

/-- For a pair that is not in `list_skylanders` the default file name is the base
directory followed by `Unknown(`, the decimal id padded on the left with spaces to
`sky_var` characters, and the text ` %2).sky`: the marker `%2` is not replaced. -/
theorem predef_name_of_unknown (env : Env σ) (base : String) (sky_id sky_var : Nat)
    (h : env.list_skylanders.lookup (sky_id, sky_var) = none) :
    predef_name env base sky_id sky_var =
      base ++ String.mk ("Unknown(".toList ++
        ((List.replicate (sky_var - (toString sky_id).toList.length) ' ' ++
          (toString sky_id).toList) ++ " %2).sky".toList)) := by
  unfold predef_name find
  rw [h]
  simp only [QString.argWidth, arg_unknown_file]
  rfl

set_option maxRecDepth 20000 in
/-- C16, the code at the failing input: the current ids are `9` and `4`, a pair that is
not in the sample table. The `Create` button of the `Customize` dialog proposes
`/sky/Unknown(   9 %2).sky` to the save dialog, and `LoadSelected`, answered with `Yes`,
creates the file under the same name: the id is padded to a width of `4` and the marker
`%2` is still in the name. -/
theorem predef_name_keeps_second_marker :
    sampleEnv.list_skylanders.lookup (9, 4) = none ∧
      predef_name sampleEnv "/sky/" 9 4 = "/sky/Unknown(   9 %2).sky" ∧
      (CreateSkylanderAdvanced_accepted sampleEnv (sampleWindow 0) "9" "4" "").log =
        [Event.getSaveFileName "Create Skylander File" "/sky/Unknown(   9 %2).sky"] ∧
      (LoadSelected sampleEnv { sampleWindow 0 with sky_id := 9, sky_var := 4 } true).log[1]? =
        some (Event.CreateSkylander "/sky/Unknown(   9 %2).sky" 9 4) := by
  decide

end Dolphin
